import Mathlib

/-!
Shallow embedding of the product-search and bundle-assembly core of the
`latest-trial-search` repository (src/lib/search.ts, src/lib/catalog.ts,
src/app/api/cart/build/route.ts), together with theorems settling the
specification claims about it.

JavaScript `number` arithmetic is modelled over `ℚ` (all prices and scores in
the source are small integers or simple fractions, far from any IEEE-754
rounding boundary relevant to the statements proved here); machine strings are
Lean `String`s; `undefined`/`null` become `Option`; JS truthiness on numbers
(`0` falsy) and strings (`""` falsy) is modelled explicitly.
-/
set_option maxRecDepth 100000

/- The Batteries rational operations are marked irreducible, which blocks
evaluation of concrete instances inside proofs; restore the default
reducibility for this development. -/

attribute [local semireducible] Rat.add Rat.mul Rat.sub Rat.inv

/-! ## Generic JavaScript-style string helpers -/
/-- JS `\w` word character: `[A-Za-z0-9_]`. -/
def isWordChar (c : Char) : Bool := c.isAlphanum || c = '_'

/-- `sub` occurs as a contiguous subsequence of `s` (JS `s.includes(sub)`). -/
def containsSeq (sub : List Char) : List Char → Bool
  | [] => sub.isEmpty
  | c :: t => sub.isPrefixOf (c :: t) || containsSeq sub t

/-- JS `s.includes(sub)`. -/
def jsIncludes (s sub : String) : Bool := containsSeq sub.data s.data

/-- One step of a word-boundary search: does `pat` occur in `s` at a position
whose previous character (`prev`, `none` at the start of the string) is not a
word character and whose following character is not a word character?  This is
the JS regex `\b pat \b` for a pattern that begins and ends with word
characters (all patterns used by the source do). -/
def containsWordFrom (pat : List Char) : Option Char → List Char → Bool
  | prev, s =>
    ((match prev with | none => true | some c => !(isWordChar c)) &&
      pat.isPrefixOf s &&
      (match s.drop pat.length with | [] => true | c :: _ => !(isWordChar c)))
    || (match s with | [] => false | c :: t => containsWordFrom pat (some c) t)

/-- JS `new RegExp ++ backslash-b pat backslash-b`.test(s) for a lowercase
word-character pattern. -/
def containsWord (s pat : String) : Bool := containsWordFrom pat.data none s.data

/-- Replace every word-boundary-delimited occurrence of `pat` in the remaining
input by `rep` (JS `s.replace(re, rep)` with a global `\b pat \b` regex);
`prev` is the character just before the remaining input in the original
string.  `fuel` only bounds the recursion so it is structural; every step
consumes at least one input character, so `fuel = s.length` is always enough. -/
def replaceWordFrom (pat rep : List Char) : ℕ → Option Char → List Char → List Char
  | 0, _, s => s
  | _ + 1, _, [] => []
  | fuel + 1, prev, c :: t =>
    if !pat.isEmpty &&
        (match prev with | none => true | some c' => !(isWordChar c')) &&
        pat.isPrefixOf (c :: t) &&
        (match (c :: t).drop pat.length with | [] => true | c' :: _ => !(isWordChar c')) then
      rep ++ replaceWordFrom pat rep fuel (some (pat.getLastD c)) ((c :: t).drop pat.length)
    else
      c :: replaceWordFrom pat rep fuel (some c) t

/-- Whole-word global replacement, starting at the beginning of the string. -/
def replaceWordAll (s pat rep : String) : String :=
  ⟨replaceWordFrom pat.data rep.data s.data.length none s.data⟩

/-- Digits of a JS `(\d+)` capture, read as a natural number (`parseInt`). -/
def digitsToNat (ds : List Char) : ℕ :=
  ds.foldl (fun n c => n * 10 + (c.toNat - 48)) 0

/-- Drop leading JS whitespace (`\s*`). -/
def skipWs (s : List Char) : List Char := s.dropWhile (·.isWhitespace)

/-- `\s*(\d+)`: skip whitespace, then read a non-empty maximal digit run. -/
def wsDigits (s : List Char) : Option ℕ :=
  let s' := skipWs s
  let ds := s'.takeWhile (·.isDigit)
  if ds.isEmpty then none else some (digitsToNat ds)

/-- Capitalize the first character (JS `charAt(0).toUpperCase() + slice(1)`). -/
def capitalize (s : String) : String :=
  match s.data with
  | [] => ""
  | c :: t => ⟨c.toUpper :: t⟩

/-- JS `charAt(0).toUpperCase() + slice(1).toLowerCase()`. -/
def capitalizeLower (s : String) : String :=
  match s.data with
  | [] => ""
  | c :: t => ⟨c.toUpper :: t.map Char.toLower⟩

/-- Structural `String.toLower` (character-wise); the core library version is
defined by well-founded recursion and is replaced here by an equivalent
structural map so that proofs can evaluate it. -/
def strToLower (s : String) : String := ⟨s.data.map Char.toLower⟩

/-- Structural `String.endsWith`. -/
def strEndsWith (s suffix : String) : Bool := suffix.data.isSuffixOf s.data

/-- Structural JS `String.prototype.trim` (strip whitespace at both ends). -/
def jsTrim (s : String) : String :=
  ⟨((s.data.dropWhile (·.isWhitespace)).reverse.dropWhile (·.isWhitespace)).reverse⟩

/-- Split into maximal non-whitespace runs (the JS split on `\\s+`; JS can
additionally emit one empty leading fragment, which every caller here discards
with a token-length filter). -/
def splitWsRuns (cur : List Char) : List Char → List String
  | [] => if cur.isEmpty then [] else [⟨cur.reverse⟩]
  | c :: t =>
    if c.isWhitespace then
      (if cur.isEmpty then splitWsRuns [] t else (⟨cur.reverse⟩ : String) :: splitWsRuns [] t)
    else splitWsRuns (c :: cur) t

/-! ## JS `Array.prototype.sort`

Modelled as a stable insertion sort driven by a JS comparator `c : α → α → ℚ`
(`c a b < 0` means `a` is placed before `b`); for a consistent comparator this
is exactly the (unique) stable sort ECMAScript prescribes. -/
/-- Insert `x` after every element it does not strictly precede (stable). -/
def insertCmp (c : α → α → ℚ) (x : α) : List α → List α
  | [] => [x]
  | y :: ys => if c x y < 0 then x :: y :: ys else y :: insertCmp c x ys

/-- Stable sort by a JS comparator. -/
def sortCmp (c : α → α → ℚ) (l : List α) : List α :=
  l.foldl (fun acc x => insertCmp c x acc) []

/-! ## Data model (src/lib/catalog.ts) -/
/-- Target shopper segment. -/
inductive Audience where
  | men
  | women
  | unisex
deriving DecidableEq, Repr

/-- Catalog product record (scenario-based catalog, src/lib/catalog.ts). -/
structure Product where
  id : String
  title : String
  brand : String
  price : ℚ
  imageUrl : String
  category : String
  color : String
  size : Option String
  fit : Option String
  occasionTags : List String
  style : String
  description : String
  scenarioId : String
  audience : Audience
  formality : String
  palette : String
  bundleRole : String
  inStock : Bool
  stockCount : ℚ
  deliveryDays : ℚ
  season : String
deriving DecidableEq, Repr

/-- `AUDIENCE_CATEGORIES` (src/lib/catalog.ts). -/
def AUDIENCE_CATEGORIES : Audience → List String
  | .men => ["Shirts", "Polos", "Chinos", "Jeans", "Tees", "Blazers", "Sneakers", "Loafers", "Derbies"]
  | .women => ["Dresses", "Blouses", "Trousers", "Skirts", "Tees", "Blazers", "Sneakers", "Flats", "Heels", "Clutches"]
  | .unisex => ["Tees", "Overshirts", "Hoodies", "Jackets", "Trousers", "Sneakers", "Backpacks", "Sunglasses", "Beanies"]

/-! ## src/lib/search.ts -/
inductive SortBy where
  | relevance
  | price_asc
  | price_desc
deriving DecidableEq, Repr

/-- `SearchConstraints` (src/lib/search.ts); `undefined` fields are `none`. -/
structure SearchConstraints where
  budgetMax : Option ℚ := none
  category : Option String := none
  color : Option String := none
  colorExclude : Option String := none
  occasion : Option String := none
  gender : Option String := none
  style : Option String := none
  includeKeywords : Option (List String) := none
  excludeKeywords : Option (List String) := none
  excludeCategories : Option (List String) := none
  sortBy : Option SortBy := none
deriving DecidableEq, Repr

/-- JS truthiness of an optional number (`0` is falsy). -/
def jsTruthyQ : Option ℚ → Bool
  | none => false
  | some q => q != 0

/-- JS truthiness of an optional string (`""` is falsy). -/
def jsTruthyStr : Option String → Bool
  | none => false
  | some s => !s.isEmpty

/-- `SYNONYMS` dictionary (src/lib/search.ts). -/
def SYNONYMS : List (String × List String) :=
  [("shoe", ["sneaker", "loafer", "derby", "heel", "flat", "footwear"]),
   ("shoes", ["sneakers", "trainers", "athletic shoes", "runners", "footwear"]),
   ("sneaker", ["sneakers", "trainers", "athletic shoes", "runners"]),
   ("snikers", ["sneakers", "sneaker"]),
   ("sneakers", ["sneaker", "trainers", "athletic shoes", "runners"]),
   ("shirt", ["shirts", "blouse", "top", "tee", "t-shirt"]),
   ("shirts", ["shirt", "blouse", "top", "tee", "t-shirt"]),
   ("pants", ["trousers", "chinos", "jeans", "slacks"]),
   ("trousers", ["pants", "chinos", "jeans", "slacks"]),
   ("jacket", ["blazer", "coat", "outerwear"]),
   ("blazer", ["jacket", "coat", "blazers"]),
   ("bag", ["handbag", "purse", "clutch", "tote"]),
   ("handbag", ["bag", "purse", "clutch", "tote"]),
   ("purse", ["handbag", "bag", "clutch", "tote"])]

/-- `TYPO_CORRECTIONS` table (src/lib/search.ts); entry order is the JS
`Object.entries` order. -/
def TYPO_CORRECTIONS : List (String × String) :=
  [("snikers", "sneakers"), ("sniker", "sneaker"),
   ("trainers", "sneakers"), ("trainer", "sneaker")]

/-- JS object lookup `TABLE[key]` returning `undefined` as `none`. -/
def tableLookup (table : List (String × α)) (key : String) : Option α :=
  (table.find? (fun e => e.1 == key)).map (·.2)

/-- Insert into a JS `Set` (insertion-ordered, deduplicated). -/
def addU (l : List String) (x : String) : List String :=
  if l.contains x then l else l ++ [x]

/-- Body of the `expandSynonyms` loop for one token (src/lib/search.ts,
`expandSynonyms`); `acc` is the JS `Set` in insertion order. -/
def expandOne (acc : List String) (token : String) : List String :=
  let acc := addU acc token
  let corrected := (tableLookup TYPO_CORRECTIONS (strToLower token)).getD (strToLower token)
  let acc := if corrected != strToLower token then addU acc corrected else acc
  let synonyms := ((tableLookup SYNONYMS (strToLower token)).or (tableLookup SYNONYMS corrected)).getD []
  let acc := synonyms.foldl (fun acc syn =>
    let acc := addU acc (strToLower syn)
    if strEndsWith syn "s" && syn.length > 1 then
      addU acc (strToLower ⟨syn.data.dropLast⟩)
    else if !strEndsWith syn "s" then
      addU acc (strToLower (syn ++ "s"))
    else acc) acc
  if strEndsWith token "s" && token.length > 1 then
    let singular := strToLower ⟨token.data.dropLast⟩
    let acc := addU acc singular
    ((tableLookup SYNONYMS singular).getD []).foldl (fun acc syn => addU acc (strToLower syn)) acc
  else if !strEndsWith token "s" then
    let plural := strToLower (token ++ "s")
    let acc := addU acc plural
    ((tableLookup SYNONYMS plural).getD []).foldl (fun acc syn => addU acc (strToLower syn)) acc
  else acc

/-- `expandSynonyms` (src/lib/search.ts). -/
def expandSynonyms (tokens : List String) : List String :=
  tokens.foldl expandOne []

/-- One row of the Levenshtein DP; `left` is `dp[i][j-1]`, `dPrev` is the tail
`dp[i-1][j-1..]` of the previous row. -/
def levRow (c1 : Char) : List Char → ℕ → List ℕ → List ℕ
  | [], _, _ => []
  | _ :: _, _, [] => []
  | c2 :: cs, left, diag :: rest =>
    let up := rest.headD 0
    let cur := if c1 = c2 then diag else min (min (up + 1) (left + 1)) (diag + 1)
    cur :: levRow c1 cs cur rest

/-- `levenshteinDistance` (src/lib/search.ts), row-by-row DP. -/
def levenshteinDistance (str1 str2 : String) : ℕ :=
  let l2 := str2.data
  let finalRow := (str1.data.foldl
    (fun (st : ℕ × List ℕ) c1 =>
      let i := st.1 + 1
      (i, i :: levRow c1 l2 i st.2))
    (0, List.range (l2.length + 1))).2
  finalRow.getLastD 0

/-- `fuzzyMatchCategory` (src/lib/search.ts) with the default threshold 2. -/
def fuzzyMatchCategory (category query : String) : Bool :=
  let categoryLower := strToLower category
  let queryLower := strToLower query
  if jsIncludes categoryLower queryLower || jsIncludes queryLower categoryLower then
    true
  else
    let distance := levenshteinDistance categoryLower queryLower
    let maxLength := max categoryLower.length queryLower.length
    decide (maxLength > 0 ∧ distance ≤ 2 ∧ (distance : ℚ) / (maxLength : ℚ) < 3 / 10)

/-- `SearchResult` (src/lib/search.ts). -/
structure SearchResult where
  product : Product
  score : ℚ
deriving DecidableEq, Repr

/-! ### Budget regex matchers (hand-compiled from the four `budgetPatterns`
regexes in `extractConstraints`; they run on the lowercased raw query, which
is equivalent to the source's case-insensitive match on the raw query). -/
/-- Alternative continuations for the optional currency group
`(?:\$|usd|dollars?)?` in JS backtracking order; the final entry is the
empty alternative. -/
def currencyOptionsOpt (s : List Char) : List (List Char) :=
  (if ("$".data).isPrefixOf s then [s.drop 1] else []) ++
  (if ("usd".data).isPrefixOf s then [s.drop 3] else []) ++
  (if ("dollars".data).isPrefixOf s then [s.drop 7] else []) ++
  (if ("dollar".data).isPrefixOf s then [s.drop 6] else []) ++
  [s]

/-- Alternative continuations for the mandatory currency group
`(?:\$|usd|dollars?)` in JS backtracking order. -/
def currencyOptionsReq (s : List Char) : List (List Char) :=
  (if ("$".data).isPrefixOf s then [s.drop 1] else []) ++
  (if ("usd".data).isPrefixOf s then [s.drop 3] else []) ++
  (if ("dollars".data).isPrefixOf s then [s.drop 7] else []) ++
  (if ("dollar".data).isPrefixOf s then [s.drop 6] else [])

/-- Try to match pattern 1,
`(?:under|below|less than|max|maximum|upto|up to)\s*(?:\$|usd|dollars?)?\s*(\d+)`,
at the current position. -/
def budget1At (s : List Char) : Option ℕ :=
  (["under", "below", "less than", "max", "maximum", "upto", "up to"].filterMap
    (fun kw =>
      if (kw.data).isPrefixOf s then
        ((currencyOptionsOpt (skipWs (s.drop kw.length))).filterMap wsDigits).head?
      else none)).head?

/-- Match `\s*(?:and|or)\s*(?:below|under|less)` at the current position. -/
def andBelowTail (s : List Char) : Bool :=
  let s1 := skipWs s
  (["and", "or"].any (fun kw =>
    (kw.data).isPrefixOf s1 &&
    (["below", "under", "less"].any (fun kw2 =>
      (kw2.data).isPrefixOf (skipWs (s1.drop kw.length))))))

/-- Try to match pattern 2,
`(?:\$|usd|dollars?)\s*(\d+)\s*(?:and|or)\s*(?:below|under|less)`, at the
current position. -/
def budget2At (s : List Char) : Option ℕ :=
  ((currencyOptionsReq s).filterMap (fun rest =>
    let s1 := skipWs rest
    let ds := s1.takeWhile (·.isDigit)
    if ds.isEmpty then none
    else if andBelowTail (s1.drop ds.length) then some (digitsToNat ds)
    else none)).head?

/-- Try to match pattern 3, `(?:\$|usd|dollars?)\s*(\d+)\s*(?:max|maximum)`,
at the current position. -/
def budget3At (s : List Char) : Option ℕ :=
  ((currencyOptionsReq s).filterMap (fun rest =>
    let s1 := skipWs rest
    let ds := s1.takeWhile (·.isDigit)
    if ds.isEmpty then none
    else if ("max".data).isPrefixOf (skipWs (s1.drop ds.length)) then
      some (digitsToNat ds)
    else none)).head?

/-- Try to match pattern 4, `(?:\$|usd|dollars?)\s*(\d+)`, at the current
position. -/
def budget4At (s : List Char) : Option ℕ :=
  ((currencyOptionsReq s).filterMap wsDigits).head?

/-- Leftmost-match scan of a positional matcher over a string (JS
`String.prototype.match` picking the first matching position). -/
def findFirstPos (f : List Char → Option α) : List Char → Option α
  | [] => none
  | c :: t => match f (c :: t) with
    | some v => some v
    | none => findFirstPos f t

/-- The budget extracted by the `budgetPatterns` loop in `extractConstraints`
(patterns are tried in order over the whole raw query, lowercased). -/
def extractBudget (query : String) : Option ℕ :=
  let s := (strToLower query).data
  (([budget1At, budget2At, budget3At, budget4At].filterMap
    (fun pat => findFirstPos pat s)).head?)

/-! ### The remaining extraction vocabularies -/
/-- Category vocabulary of `extractConstraints` (lowercase, source order). -/
def CATEGORY_VOCAB : List String :=
  ["shirts", "trousers", "jeans", "t-shirts", "t shirts", "blazers",
   "dresses", "sneakers", "loafers", "derbies", "heels", "flats",
   "handbags", "watches", "polos", "chinos", "blouses", "skirts",
   "clutches", "overshirts", "hoodies", "jackets", "backpacks",
   "sunglasses", "beanies", "tees"]

/-- The proper-cased category name assigned by `extractConstraints`. -/
def properCategory (category : String) : String :=
  if category = "t-shirts" || category = "t shirts" then "T-Shirts"
  else capitalize category

/-- Color vocabulary of `extractConstraints` (source order). -/
def COLOR_VOCAB : List String :=
  ["black", "white", "navy", "gray", "grey", "beige", "brown", "blue",
   "red", "green", "pink", "purple", "yellow", "orange", "maroon", "olive"]

/-- `"grey"` normalizes to `"Gray"`; otherwise capitalize (inclusion case
`color.charAt(0).toUpperCase() + color.slice(1)`). -/
def properColor (color : String) : String :=
  if color = "grey" then "Gray" else capitalize color

/-- Exclusion case normalization:
`match[1].charAt(0).toUpperCase() + match[1].slice(1).toLowerCase()`. -/
def properColorExclude (color : String) : String :=
  if strToLower color = "grey" then "Gray" else capitalizeLower color

/-- First match of a `kw\s+(\w+)` exclusion pattern: leftmost occurrence of
the literal keyword followed by whitespace and a word-character run, whose
maximal word-character capture is returned. -/
def kwCaptureAt (kw : List Char) (s : List Char) : Option (List Char) :=
  if kw.isPrefixOf s then
    let rest := s.drop kw.length
    let ws := rest.takeWhile (·.isWhitespace)
    if ws.isEmpty then none
    else
      let w := (rest.drop ws.length).takeWhile isWordChar
      if w.isEmpty then none else some w
  else none

/-- The four `excludeColorPatterns` keywords, in source order. -/
def EXCLUDE_COLOR_KEYWORDS : List String := ["no", "exclude", "without", "not"]

/-- The color exclusion extracted by `extractConstraints`: for each pattern in
order, take its first match in the query; if that match's captured word is a
known color, normalize and stop, otherwise try the next pattern. -/
def extractColorExclude (lowerQuery : String) : Option String :=
  ((EXCLUDE_COLOR_KEYWORDS.filterMap (fun kw =>
    match findFirstPos (kwCaptureAt kw.data) lowerQuery.data with
    | some w =>
      let word : String := ⟨w⟩
      if COLOR_VOCAB.contains (strToLower word) then some (properColorExclude word)
      else none
    | none => none)).head?)

/-- Occasion vocabulary (source order). -/
def OCCASION_VOCAB : List String :=
  ["casual", "formal", "party", "work", "wedding", "sports", "travel",
   "evening", "beach", "office"]

/-- Style vocabulary (source order). -/
def STYLE_VOCAB : List String :=
  ["minimalist", "vintage", "contemporary", "bohemian", "classic",
   "streetwear", "elegant", "sporty"]

/-- `extractConstraints` (src/lib/search.ts). -/
def extractConstraints (query : String) (audience : Option Audience := none) :
    SearchConstraints :=
  -- Typo correction of the whole (lowercased) query before other extraction.
  let lowerQuery := TYPO_CORRECTIONS.foldl
    (fun q e => replaceWordAll q e.1 e.2) (strToLower query)
  -- Budget: matched on the raw query (case-insensitively).
  let budgetMax := (extractBudget query).map (fun n => (n : ℚ))
  -- Category: first whole-word vocabulary match on the corrected query.
  let catMatch := CATEGORY_VOCAB.find? (fun cat => containsWord lowerQuery cat)
  let category := catMatch.map properCategory
  -- Generic "shoe" fallback when no specific category matched.
  let includeKeywords :=
    if catMatch.isNone && jsIncludes lowerQuery "shoe" then
      let base := ["Sneakers", "Loafers", "Derbies", "Heels", "Flats"]
      some (match audience with
        | some .men => base.filter (fun c => ["Sneakers", "Loafers", "Derbies"].contains c)
        | some .women => base.filter (fun c => ["Sneakers", "Flats", "Heels"].contains c)
        | some .unisex => ["Sneakers"]
        | none => base)
    else none
  -- Color: exclusion patterns first, inclusion only if none matched.
  let colorExclude := extractColorExclude lowerQuery
  let color :=
    if colorExclude.isNone then
      (COLOR_VOCAB.find? (fun c => jsIncludes lowerQuery c)).map properColor
    else none
  let occasion := (OCCASION_VOCAB.find? (fun o => jsIncludes lowerQuery o)).map capitalize
  let gender :=
    if jsIncludes lowerQuery "men" || jsIncludes lowerQuery "male" ||
        jsIncludes lowerQuery "gents" then
      some "Men"
    else if jsIncludes lowerQuery "women" || jsIncludes lowerQuery "female" ||
        jsIncludes lowerQuery "ladies" then
      some "Women"
    else none
  let style := (STYLE_VOCAB.find? (fun st => jsIncludes lowerQuery st)).map capitalize
  { budgetMax := budgetMax, category := category, color := color,
    colorExclude := colorExclude, occasion := occasion, gender := gender,
    style := style, includeKeywords := includeKeywords }

/-- Stop words filtered by `tokenizeQuery` (the regex
`^(the|and|or|for|with|under|below|max)$`; tokens are lowercase here). -/
def STOP_WORDS : List String :=
  ["the", "and", "or", "for", "with", "under", "below", "max"]

/-- The basic token list: lowercase, split on whitespace, drop tokens of
length ≤ 2 and stop words (the length filter also removes the empty fragments
a whitespace split can produce, so `String.split` matches the JS `\s+`
split). -/
def baseTokens (query : String) : List String :=
  ((splitWsRuns [] (strToLower query).data).filter (fun t => t.length > 2)).filter
    (fun t => !STOP_WORDS.contains t)

/-- `tokenizeQuery` (src/lib/search.ts). -/
def tokenizeQuery (query : String) : List String :=
  expandSynonyms (baseTokens query)

/-- `scenarioMatches` table inside `calculateScore`. -/
def scenarioMatches : List (String × List String) :=
  [("summer_wedding", ["summer", "wedding", "outdoor", "festive"]),
   ("nyc_dinner", ["nyc", "new york", "dinner", "evening", "work"]),
   ("biz_travel", ["business", "travel", "trip", "airport"]),
   ("chi_winter", ["chicago", "winter", "cold", "snow"]),
   ("campus", ["campus", "college", "university", "school"])]

/-- `calculateScore` (src/lib/search.ts). -/
def calculateScore (product : Product) (tokens : List String)
    (constraints : SearchConstraints) (originalQuery : String) : ℚ :=
  let score : ℚ := 0
  -- Scenario matching boost.
  let score := score +
    (match tableLookup scenarioMatches product.scenarioId with
     | some keywords =>
       let queryLower := strToLower (String.intercalate " " tokens)
       if keywords.any (fun kw => jsIncludes queryLower kw) then 15 else 0
     | none => 0)
  -- Original (pre-expansion) tokens, for the exact-match bonus.
  let originalTokens := baseTokens originalQuery
  -- Per-token field matches.
  let score := tokens.foldl (fun score token =>
    let isOriginalToken := originalTokens.any (fun orig =>
      orig == token || jsIncludes orig token || jsIncludes token orig)
    let matchBonus : ℚ := if isOriginalToken then 2 else 0
    let score := if jsIncludes (strToLower product.title) token then score + 10 + matchBonus else score
    let score := if jsIncludes (strToLower product.brand) token then score + 8 + matchBonus else score
    let score :=
      if jsIncludes (strToLower product.category) token then score + 7 + matchBonus
      else if fuzzyMatchCategory product.category token then score + 5
      else score
    let score :=
      if jsIncludes (strToLower product.color) token then score + 6 + matchBonus
      else if fuzzyMatchCategory product.color token then score + 4
      else score
    let score := if jsIncludes (strToLower product.style) token then score + 5 + matchBonus else score
    let score :=
      if product.occasionTags.any (fun tag => jsIncludes (strToLower tag) token) then
        score + 4 + matchBonus
      else score
    let score := if jsIncludes (strToLower product.description) token then score + 2 else score
    let score := if token == "summer" && product.scenarioId == "summer_wedding" then score + 8 else score
    let score := if token == "wedding" && product.scenarioId == "summer_wedding" then score + 8 else score
    let score := if token == "outdoor" && product.scenarioId == "summer_wedding" then score + 6 else score
    score) score
  -- Constraint-alignment bonuses (JS `constraints.f && product.f === ...`).
  let score := score + (match constraints.category with
    | some cat => if !cat.isEmpty && product.category == cat then 5 else 0
    | none => 0)
  let score := score + (match constraints.color with
    | some col => if !col.isEmpty && product.color == col then 4 else 0
    | none => 0)
  let score := score + (match constraints.occasion with
    | some occ =>
      if !occ.isEmpty &&
          product.occasionTags.any (fun tag => strToLower tag == strToLower occ) then 3
      else 0
    | none => 0)
  let score := score + (match constraints.style with
    | some st => if !st.isEmpty && product.style == st then 3 else 0
    | none => 0)
  -- Budget proximity bonus.
  let score := score + (match constraints.budgetMax with
    | some b =>
      if b != 0 then
        let priceDiff := b - product.price
        if priceDiff > 0 then min (priceDiff / 100) 5 else 0
      else 0
    | none => 0)
  score

/-- `preFilter` (src/lib/search.ts): the conjunction of the source's
early-return checks, in source order. -/
def preFilter (product : Product) (constraints : SearchConstraints)
    (audience : Option Audience) : Bool :=
  -- Audience-based category filtering.
  (match audience with
   | some a => (AUDIENCE_CATEGORIES a).contains product.category
   | none => true) &&
  -- Budget filter.
  (match constraints.budgetMax with
   | some b => !(b != 0 && product.price > b)
   | none => true) &&
  -- Category filter.
  (match constraints.category with
   | some cat => !(!cat.isEmpty && product.category != cat)
   | none => true) &&
  -- Color include filter.
  (match constraints.color with
   | some col => !(!col.isEmpty && product.color != col)
   | none => true) &&
  -- Color exclude filter.
  (match constraints.colorExclude with
   | some col => !(!col.isEmpty && strToLower product.color == strToLower col)
   | none => true) &&
  -- Include keywords filter (with the audience whitelist re-check).
  (match constraints.includeKeywords with
   | some kws =>
     if kws.length > 0 then
       kws.any (fun k => strToLower product.category == strToLower k) &&
       (match audience with
        | some a => (AUDIENCE_CATEGORIES a).contains product.category
        | none => true)
     else true
   | none => true) &&
  -- Exclude keywords filter.
  (match constraints.excludeKeywords with
   | some kws =>
     if kws.length > 0 then
       !(kws.any (fun k =>
         jsIncludes (strToLower (String.intercalate " "
           [product.title, product.description, product.category,
            product.color])) (strToLower k)))
     else true
   | none => true) &&
  -- Category exclusion filter.
  (match constraints.excludeCategories with
   | some cats => if cats.length > 0 then !(cats.contains product.category) else true
   | none => true) &&
  -- Occasion filter.
  (match constraints.occasion with
   | some occ =>
     !(!occ.isEmpty &&
       !(product.occasionTags.any (fun tag => strToLower tag == strToLower occ)))
   | none => true) &&
  -- Style filter.
  (match constraints.style with
   | some st => !(!st.isEmpty && product.style != st)
   | none => true)

/-- Comparator of the `price_asc` re-sort in `searchProducts`. -/
def priceAscCmp (a b : SearchResult) : ℚ :=
  if a.score ≠ b.score ∧ |a.score - b.score| > 5 then b.score - a.score
  else a.product.price - b.product.price

/-- Comparator of the `price_desc` re-sort in `searchProducts`. -/
def priceDescCmp (a b : SearchResult) : ℚ :=
  if a.score ≠ b.score ∧ |a.score - b.score| > 5 then b.score - a.score
  else b.product.price - a.product.price

/-- The scored, pre-filtered, score-descending result list of
`searchProducts` before the optional price re-sort and the `limit` slice.
(The source stores `sortBy` into `constraints.sortBy`; no later check reads
it, the re-sort branches on the `sortBy` argument directly.) -/
def searchScored (products : List Product) (query : String)
    (audience : Option Audience) (sortBy : SortBy) : List SearchResult :=
  if jsTrim query = "" then []
  else
    let tokens := tokenizeQuery query
    let constraints := { extractConstraints query audience with sortBy := some sortBy }
    let preFiltered := products.filter (fun p => preFilter p constraints audience)
    sortCmp (fun a b => b.score - a.score)
      ((preFiltered.map (fun p =>
        { product := p, score := calculateScore p tokens constraints query })).filter
        (fun r => decide (r.score ≥ 0)))

/-- `searchProducts` (src/lib/search.ts). -/
def searchProducts (products : List Product) (query : String) (limit : ℕ)
    (audience : Option Audience) (sortBy : SortBy) : List SearchResult :=
  let scored := searchScored products query audience sortBy
  let scored := match sortBy with
    | .price_asc => sortCmp priceAscCmp scored
    | .price_desc => sortCmp priceDescCmp scored
    | .relevance => scored
  scored.take limit

/-! ## Concrete catalog records used by witnesses and counterexamples -/
/-- A small concrete product record builder for witness catalogs (all claims
quantify over arbitrary catalogs). -/
def mkProduct (id : String) (category : String) (color : String) (price : ℚ)
    (style : String) (descr : String) (audience : Audience)
    (scenarioId : String) : Product :=
  { id := id, title := "Xq", brand := "Zb", price := price, imageUrl := "",
    category := category, color := color, size := none, fit := none,
    occasionTags := [], style := style, description := descr,
    scenarioId := scenarioId, audience := audience, formality := "relaxed",
    palette := "cool", bundleRole := "core", inStock := true,
    stockCount := 10, deliveryDays := 2, season := "all" }

def wNavyShirt : Product := mkProduct "n1" "Shirts" "Navy" 100 "Plain" "none" .men "campus"

def c3Pink : Product := mkProduct "pk" "Shirts" "Pink" 60 "Plain" "none" .men "campus"

def c6A : Product := mkProduct "a" "Chinos" "Olive" 1 "Plain" "none" .men "campus"

def c6B : Product := mkProduct "b" "Chinos" "Olive" 2 "Plain" "festives" .men "campus"

def c6C : Product := mkProduct "c" "Chinos" "Olive" 3 "festive" "none" .men "campus"

def c6W1 : Product := mkProduct "w1" "Chinos" "Olive" 5 "Plain" "none" .men "campus"

def c6W2 : Product := mkProduct "w2" "Chinos" "Olive" 1 "Plain" "festives" .men "campus"

/-- The pairwise ordering property claimed for the price re-sorts: results
with a score gap above the 5-point threshold appear in descending score
order, near-ties appear in price order. -/
instance : Inhabited Product :=
  ⟨mkProduct "" "" "" 0 "" "" .men ""⟩

instance : Inhabited SearchResult := ⟨⟨default, 0⟩⟩

def priceTieOrderClaimAsc (out : List SearchResult) : Prop :=
  ∀ i j : ℕ, i < j → j < out.length →
    (5 < |(out.getD i default).score - (out.getD j default).score| →
      (out.getD j default).score < (out.getD i default).score) ∧
    (|(out.getD i default).score - (out.getD j default).score| ≤ 5 →
      (out.getD i default).product.price ≤ (out.getD j default).product.price)

/-! ## src/app/api/cart/build/route.ts — bundle assembly -/
/-- `AUDIENCE_CATEGORY_WHITELIST` (route-local copy of the audience
whitelists). -/
def AUDIENCE_CATEGORY_WHITELIST : Audience → List String
  | .men => ["Shirts", "Polos", "Chinos", "Jeans", "Tees", "Blazers", "Sneakers", "Loafers", "Derbies"]
  | .women => ["Dresses", "Blouses", "Trousers", "Skirts", "Tees", "Blazers", "Sneakers", "Flats", "Heels", "Clutches"]
  | .unisex => ["Tees", "Overshirts", "Hoodies", "Jackets", "Trousers", "Sneakers", "Backpacks", "Sunglasses", "Beanies"]

/-- `CartItem` (the `why` field is filled by the external collaborator and is
`""` during assembly). -/
structure CartItem where
  id : String
  title : String
  brand : String
  price : ℚ
  imageUrl : String
  category : String
  color : String
  why : String
  role : String
deriving DecidableEq, Repr

/-- `RoleTemplate`: role label to acceptable categories, in the JS object's
key order (object keys are unique). -/
structure RoleTemplate where
  roles : List (String × List String)
deriving DecidableEq, Repr

/-- `ROLE_TEMPLATES[scenarioId][audience]` (the `[]` default covers unknown
scenario ids). -/
def roleTemplates (scenarioId : String) (audience : Audience) : List RoleTemplate :=
  if scenarioId = "nyc_dinner" then
    match audience with
    | .men =>
      [⟨[("top", ["Shirts", "Polos"]),
         ("bottom", ["Chinos", "Jeans", "Trousers", "Pants"]),
         ("footwear", ["Loafers", "Derbies", "Sneakers"]),
         ("addOn", ["Blazers"])]⟩,
       ⟨[("top", ["Shirts", "Polos"]),
         ("bottom", ["Chinos", "Jeans", "Trousers", "Pants"]),
         ("footwear", ["Loafers", "Derbies", "Sneakers"])]⟩]
    | .women =>
      [⟨[("primary", ["Dresses", "Dress", "Jumpsuit", "Jumpsuits"]),
         ("footwear", ["Heels", "Flats", "Loafers", "Sneakers"]),
         ("addOn", ["Blazers", "Jackets", "Clutches", "Handbags"])]⟩,
       ⟨[("top", ["Blouses", "Tops", "Shirts"]),
         ("bottom", ["Trousers", "Pants", "Skirts", "Jeans"]),
         ("footwear", ["Heels", "Flats", "Loafers", "Sneakers"])]⟩]
    | .unisex =>
      [⟨[("top", ["Tees", "Overshirts"]),
         ("bottom", ["Trousers", "Pants"]),
         ("footwear", ["Sneakers"]),
         ("addOn", ["Jackets", "Backpacks"])]⟩,
       ⟨[("top", ["Tees", "Overshirts"]),
         ("bottom", ["Trousers", "Pants"]),
         ("footwear", ["Sneakers"])]⟩]
  else if scenarioId = "summer_wedding" then
    match audience with
    | .men =>
      [⟨[("top", ["Shirts", "Polos"]),
         ("bottom", ["Chinos", "Trousers", "Pants"]),
         ("footwear", ["Loafers", "Derbies"]),
         ("addOn", ["Blazers"])]⟩]
    | .women =>
      [⟨[("primary", ["Dresses", "Dress"]),
         ("footwear", ["Heels", "Flats"]),
         ("addOn", ["Clutches", "Blazers"])]⟩,
       ⟨[("top", ["Blouses", "Tops"]),
         ("bottom", ["Trousers", "Pants", "Skirts"]),
         ("footwear", ["Heels", "Flats"])]⟩]
    | .unisex =>
      [⟨[("top", ["Tees", "Overshirts"]),
         ("bottom", ["Trousers", "Pants"]),
         ("footwear", ["Sneakers"]),
         ("addOn", ["Jackets", "Sunglasses"])]⟩]
  else if scenarioId = "biz_travel" then
    match audience with
    | .men =>
      [⟨[("top", ["Shirts", "Polos", "Tees"]),
         ("bottom", ["Chinos", "Trousers", "Pants"]),
         ("footwear", ["Sneakers", "Loafers"]),
         ("addOn", ["Blazers", "Jackets"])]⟩]
    | .women =>
      [⟨[("top", ["Blouses", "Tops", "Tees"]),
         ("bottom", ["Trousers", "Skirts"]),
         ("footwear", ["Sneakers", "Flats"])]⟩,
       ⟨[("top", ["Blouses", "Tops", "Tees"]),
         ("bottom", ["Trousers", "Skirts"]),
         ("footwear", ["Sneakers", "Flats"]),
         ("addOn", ["Blazers", "Clutches"])]⟩]
    | .unisex =>
      [⟨[("top", ["Tees", "Overshirts"]),
         ("bottom", ["Trousers", "Pants"]),
         ("footwear", ["Sneakers"]),
         ("addOn", ["Jackets", "Backpacks"])]⟩]
  else if scenarioId = "chi_winter" then
    match audience with
    | .men =>
      [⟨[("top", ["Shirts", "Polos", "Tees"]),
         ("bottom", ["Chinos", "Jeans", "Trousers"]),
         ("footwear", ["Sneakers", "Loafers", "Derbies"]),
         ("addOn", ["Blazers", "Jackets"])]⟩]
    | .women =>
      [⟨[("primary", ["Dresses", "Dress"]),
         ("footwear", ["Sneakers", "Flats", "Heels"]),
         ("addOn", ["Blazers", "Clutches"])]⟩,
       ⟨[("top", ["Blouses", "Tops", "Tees"]),
         ("bottom", ["Trousers", "Skirts", "Jeans"]),
         ("footwear", ["Sneakers", "Flats", "Heels"])]⟩,
       ⟨[("top", ["Blouses", "Tops", "Tees"]),
         ("bottom", ["Trousers", "Skirts", "Jeans"]),
         ("footwear", ["Sneakers", "Flats", "Heels"]),
         ("addOn", ["Blazers", "Clutches"])]⟩]
    | .unisex =>
      [⟨[("top", ["Tees", "Overshirts", "Hoodies"]),
         ("bottom", ["Trousers", "Pants"]),
         ("footwear", ["Sneakers"]),
         ("addOn", ["Jackets", "Beanies"])]⟩]
  else if scenarioId = "campus" then
    match audience with
    | .men =>
      [⟨[("top", ["Tees", "Shirts", "Polos"]),
         ("bottom", ["Jeans", "Chinos"]),
         ("footwear", ["Sneakers"]),
         ("addOn", ["Backpacks"])]⟩]
    | .women =>
      [⟨[("top", ["Tees", "Blouses", "Tops"]),
         ("bottom", ["Jeans", "Trousers", "Skirts"]),
         ("footwear", ["Sneakers", "Flats"])]⟩,
       ⟨[("top", ["Tees", "Blouses", "Tops"]),
         ("bottom", ["Jeans", "Trousers", "Skirts"]),
         ("footwear", ["Sneakers", "Flats"]),
         ("addOn", ["Backpacks"])]⟩]
    | .unisex =>
      [⟨[("top", ["Tees", "Overshirts", "Hoodies"]),
         ("bottom", ["Trousers", "Pants", "Jeans"]),
         ("footwear", ["Sneakers"]),
         ("addOn", ["Backpacks", "Beanies"])]⟩]
  else []

/-- `const templates = scenarioId && audience ? ROLE_TEMPLATES[scenarioId]?.[audience] || [] : []`. -/
def templatesForOpt (scenarioId : Option String) (audience : Option Audience) :
    List RoleTemplate :=
  match scenarioId, audience with
  | some sc, some aud => if sc ≠ "" then roleTemplates sc aud else []
  | _, _ => []

/-- Result of `classifyProductRole`. -/
structure RoleClassification where
  categoryNormalized : String
  roleCandidates : List String
deriving DecidableEq, Repr

/-- `classifyProductRole` (route.ts). -/
def classifyProductRole (product : Product) : RoleClassification :=
  let categoryLower := strToLower product.category
  let roles :=
    (if ["dress", "dresses", "jumpsuit", "jumpsuits"].contains categoryLower then ["primary"] else []) ++
    (if ["blouses", "tops", "shirts", "tees", "t-shirts"].contains categoryLower then ["top"] else []) ++
    (if ["trousers", "pants", "skirts", "jeans", "chinos"].contains categoryLower then ["bottom"] else []) ++
    (if ["heels", "flats", "loafers", "sneakers", "derbies"].contains categoryLower then ["footwear"] else []) ++
    (if ["blazers", "jackets", "clutches", "handbags"].contains categoryLower then ["addOn"] else [])
  { categoryNormalized := categoryLower,
    roleCandidates := if roles.length > 0 then roles else ["item"] }

/-- Price tier boundaries (`budgetMax`, `balancedMin`, `balancedMax`,
`premiumMin` in `buildCarts`). -/
structure PriceTiers where
  budgetMax : ℚ
  balancedMin : ℚ
  balancedMax : ℚ
  premiumMin : ℚ
deriving DecidableEq, Repr

inductive Tier where
  | budget
  | balanced
  | premium
deriving DecidableEq, Repr

/-- `scoreProductForRole` (route.ts).  The `role` parameter is accepted but —
as in the source — never read. -/
def scoreProductForRole (product : Product) (role : String) (query : String)
    (tier : Tier) (priceTiers : PriceTiers) (otherItems : List Product) : ℚ :=
  let score : ℚ := 0
  -- Price tier match.
  let score := score + (match tier with
    | .budget => if product.price ≤ priceTiers.budgetMax then 10 else 0
    | .balanced =>
      if product.price ≥ priceTiers.balancedMin ∧ product.price ≤ priceTiers.balancedMax
      then 10 else 0
    | .premium => if product.price ≥ priceTiers.premiumMin then 10 else 0)
  -- Occasion tags match (evening, dinner, party).
  let lowerQuery := strToLower query
  let hasEvening := jsIncludes lowerQuery "evening" || jsIncludes lowerQuery "dinner" ||
    jsIncludes lowerQuery "party"
  let score :=
    if hasEvening && product.occasionTags.any (fun tag =>
        jsIncludes (strToLower tag) "evening" || jsIncludes (strToLower tag) "dinner" ||
        jsIncludes (strToLower tag) "party") then
      score + 5
    else score
  -- Formality match.
  let score := if jsIncludes lowerQuery "formal" && product.formality == "formal" then score + 5 else score
  let score := if jsIncludes lowerQuery "smart" && product.formality == "smart_casual" then score + 5 else score
  -- Delivery alignment (within 2 days of the running average).
  let score :=
    if otherItems.length > 0 then
      let avgDelivery := (otherItems.foldl (fun sum p => sum + p.deliveryDays) 0) /
        (otherItems.length : ℚ)
      if |product.deliveryDays - avgDelivery| ≤ 2 then score + 3 else score
    else score
  score

/-- `if (anchorProductId) { anchorProduct = pool.find(p => p.id === anchorProductId) || null }`
(a present but empty id is falsy in JS). -/
def jsFindAnchor (anchorProductId : Option String) (pool : List Product) :
    Option Product :=
  match anchorProductId with
  | some aid => if aid = "" then none else pool.find? (fun p => p.id == aid)
  | none => none

/-- The price-tier pool filter shared by `buildBundleWithTemplate` and
`buildFallbackBundle`: the anchor product is always excluded here (it is
inserted separately, regardless of its price). -/
def tierFilterPool (anchorProduct : Option Product) (bounds : PriceTiers)
    (tier : Tier) (pool : List Product) : List Product :=
  pool.filter (fun p =>
    if (match anchorProduct with
        | some a => p.id == a.id
        | none => false) then
      false
    else
      match tier with
      | .budget => p.price ≤ bounds.budgetMax
      | .balanced => p.price ≥ bounds.balancedMin ∧ p.price ≤ bounds.balancedMax
      | .premium => p.price ≥ bounds.premiumMin)

/-- Build a `CartItem` from a product and an assigned role (`why` is filled
later by the collaborator). -/
def mkCartItem (p : Product) (role : String) : CartItem :=
  { id := p.id, title := p.title, brand := p.brand, price := p.price,
    imageUrl := p.imageUrl, category := p.category, color := p.color,
    why := "", role := role }

/-- The anchor's role for a template: first role candidate present among the
template's roles, else the first template role whose category list contains
the anchor's category, else the first role candidate. -/
def anchorRoleForTemplate (anchor : Product) (template : RoleTemplate) :
    Option String :=
  let cls := classifyProductRole anchor
  match cls.roleCandidates.find? (fun rc =>
      (template.roles.find? (fun e => e.1 == rc)).isSome) with
  | some rc => some rc
  | none =>
    match template.roles.find? (fun e => e.2.contains anchor.category) with
    | some e => some e.1
    | none => cls.roleCandidates.head?

/-- The role-filling loop of `buildBundleWithTemplate`: for each template role
in order, skip it if already filled, otherwise pick the highest-scoring
unused candidate of an allowed category from the tier-filtered pool; fail
(`none`) as the source's early `return null` does when a role has no
candidate. -/
def fillRoles (filteredPool pool : List Product) (query : String) (tier : Tier)
    (bounds : PriceTiers) :
    List (String × List String) → List CartItem → List String →
    Option (List CartItem)
  | [], bundle, _ => some bundle
  | (role, allowedCategories) :: rest, bundle, usedIds =>
    if bundle.any (fun b => b.role == role) then
      fillRoles filteredPool pool query tier bounds rest bundle usedIds
    else
      let selectedProducts := bundle.filterMap (fun b =>
        pool.find? (fun pp => pp.id == b.id))
      let candidates := sortCmp (fun a b => b.2 - a.2)
        ((filteredPool.filter (fun p =>
          !(usedIds.contains p.id) && allowedCategories.contains p.category)).map
          (fun p => (p, scoreProductForRole p role query tier bounds selectedProducts)))
      match candidates.head? with
      | none => none
      | some sel =>
        fillRoles filteredPool pool query tier bounds rest
          (bundle ++ [mkCartItem sel.1 role]) (usedIds ++ [sel.1.id])

/-- `buildBundleWithTemplate` (route.ts). -/
def buildBundleWithTemplate (pool : List Product) (template : RoleTemplate)
    (tier : Tier) (query : String) (anchorProductId : Option String)
    (bounds : PriceTiers) : Option (List CartItem) :=
  let anchorProduct := jsFindAnchor anchorProductId pool
  let filteredPool := tierFilterPool anchorProduct bounds tier pool
  let start : List CartItem × List String :=
    match anchorProduct with
    | some a =>
      (match anchorRoleForTemplate a template with
       | some role => ([mkCartItem a role], [a.id])
       | none => ([], []))
    | none => ([], [])
  match fillRoles filteredPool pool query tier bounds template.roles start.1 start.2 with
  | some bundle =>
    if bundle.length = template.roles.length then some bundle else none
  | none => none

/-- `validateBundle` (route.ts): JS `Set` sizes are distinct counts. -/
def validateBundle (bundle : List CartItem) (template : RoleTemplate) : Bool :=
  let requiredRoles := (template.roles.map Prod.fst).dedup
  let bundleRoles := (bundle.map CartItem.role).dedup
  requiredRoles.length == bundleRoles.length &&
    requiredRoles.all (fun r => bundleRoles.contains r)

/-- Fallback role priority order. -/
def rolePriority : List String := ["primary", "top", "bottom", "footwear", "addOn"]

/-- The role-priority loop of `buildFallbackBundle`; returns the bundle and
the used product ids (shared with the padding loop). -/
def fallbackRolesLoop (filteredPool pool : List Product) (query : String)
    (tier : Tier) (bounds : PriceTiers) :
    List String → List CartItem → List String → List String →
    List CartItem × List String
  | [], bundle, usedIds, _ => (bundle, usedIds)
  | role :: rest, bundle, usedIds, usedRoles =>
    if bundle.length ≥ 3 then (bundle, usedIds)
    else if usedRoles.contains role then
      fallbackRolesLoop filteredPool pool query tier bounds rest bundle usedIds usedRoles
    else
      let selectedProducts := bundle.filterMap (fun b =>
        pool.find? (fun pp => pp.id == b.id))
      let candidates := sortCmp (fun a b => b.2 - a.2)
        ((filteredPool.filter (fun p =>
          !(usedIds.contains p.id) &&
          (classifyProductRole p).roleCandidates.contains role)).map
          (fun p => (p, scoreProductForRole p role query tier bounds selectedProducts)))
      match candidates.head? with
      | none =>
        fallbackRolesLoop filteredPool pool query tier bounds rest bundle usedIds usedRoles
      | some sel =>
        let assignedRole :=
          (((classifyProductRole sel.1).roleCandidates.find? (fun r =>
            rolePriority.contains r)).getD role)
        fallbackRolesLoop filteredPool pool query tier bounds rest
          (bundle ++ [mkCartItem sel.1 assignedRole]) (usedIds ++ [sel.1.id])
          (usedRoles ++ [assignedRole])

/-- The padding loop of `buildFallbackBundle` ("fill remaining slots with any
available products"). -/
def padLoop : List Product → List CartItem → List String → List CartItem
  | [], bundle, _ => bundle
  | p :: ps, bundle, usedIds =>
    if bundle.length ≥ 3 then bundle
    else if usedIds.contains p.id then padLoop ps bundle usedIds
    else
      padLoop ps
        (bundle ++ [mkCartItem p ((classifyProductRole p).roleCandidates.headD "item")])
        (usedIds ++ [p.id])

/-- `buildFallbackBundle` (route.ts). -/
def buildFallbackBundle (pool : List Product) (tier : Tier) (query : String)
    (anchorProductId : Option String) (bounds : PriceTiers) : List CartItem :=
  let anchorProduct := jsFindAnchor anchorProductId pool
  let filteredPool := tierFilterPool anchorProduct bounds tier pool
  let start : List CartItem × List String × List String :=
    match anchorProduct with
    | some a =>
      let role := (classifyProductRole a).roleCandidates.headD "item"
      ([mkCartItem a role], [a.id], [role])
    | none => ([], [], [])
  let afterRoles := fallbackRolesLoop filteredPool pool query tier bounds
    rolePriority start.1 start.2.1 start.2.2
  (padLoop filteredPool afterRoles.1 afterRoles.2).take 3

/-- The template loop of `buildTierBundle`: try each template in order,
accepting the first whose bundle validates. -/
def tryTemplates (pool : List Product) (query : String) (tier : Tier)
    (bounds : PriceTiers) (anchorProductId : Option String) :
    List RoleTemplate → Option (List CartItem)
  | [] => none
  | t :: ts =>
    match buildBundleWithTemplate pool t tier query anchorProductId bounds with
    | some b =>
      if validateBundle b t then some b
      else tryTemplates pool query tier bounds anchorProductId ts
    | none => tryTemplates pool query tier bounds anchorProductId ts

/-- `buildTierBundle` (route.ts): templates in order, then the fallback
builder (also used when no templates exist for the scenario/audience). -/
def buildTierBundle (templates : List RoleTemplate) (pool : List Product)
    (query : String) (tier : Tier) (bounds : PriceTiers)
    (anchorProductId : Option String) : List CartItem :=
  match tryTemplates pool query tier bounds anchorProductId templates with
  | some b => b
  | none => buildFallbackBundle pool tier query anchorProductId bounds

/-- Pink-adjacent keywords of the men color guardrail. -/
def PINK_KEYWORDS : List String := ["pink", "magenta", "pastel", "bold", "pop color"]

/-- The hard filtering stage of `buildCarts`: scenario, audience (with the
optional unisex mix), audience category whitelist, the smart-evening Tees
guardrail and the men/pink color guardrail. -/
def bundlePool (candidates : List SearchResult) (query : String)
    (audience : Option Audience) (scenarioId : Option String)
    (allowUnisexMix : Bool) : List Product :=
  let products := candidates.map (·.product)
  let products := match scenarioId with
    | some sc => if sc ≠ "" then products.filter (fun p => p.scenarioId == sc) else products
    | none => products
  match audience with
  | none => products
  | some aud =>
    let products :=
      if allowUnisexMix then
        products.filter (fun p => p.audience == aud || p.audience == Audience.unisex)
      else
        products.filter (fun p => p.audience == aud)
    let products := products.filter (fun p =>
      (AUDIENCE_CATEGORY_WHITELIST aud).contains p.category)
    let lowerQuery := strToLower query
    let hasSmart := jsIncludes lowerQuery "smart"
    let hasEvening := jsIncludes lowerQuery "evening" || jsIncludes lowerQuery "dinner" ||
      jsIncludes lowerQuery "party"
    let hasCasualOrRelaxed := jsIncludes lowerQuery "casual" || jsIncludes lowerQuery "relaxed"
    let products :=
      if hasSmart && hasEvening && !hasCasualOrRelaxed then
        products.filter (fun p => p.category != "Tees" && p.category != "T-Shirts")
      else products
    if aud = Audience.men then
      let hasPinkRequest := PINK_KEYWORDS.any (fun k => jsIncludes lowerQuery k)
      if !hasPinkRequest then
        products.filter (fun p => strToLower p.color != "pink")
      else products
    else products

/-- The price tier boundaries of `buildCarts` (the JS literals `0.33` and
`0.67` are modelled by the exact rationals they denote in the source text;
no concrete instance proved here sits within double-rounding distance of a
boundary).  Only called with at least 3 products, so the `getD` default is
never used. -/
def tierBounds (products : List Product) : PriceTiers :=
  let sorted := sortCmp (fun (a b : Product) => a.price - b.price) products
  let priceAt := fun (i : ℕ) => (sorted.getD i default).price
  let minPrice := priceAt 0
  let maxPrice := priceAt (sorted.length - 1)
  let priceRange := maxPrice - minPrice
  if priceRange < 10 then
    let third := sorted.length / 3
    { budgetMax := priceAt (third - 1),
      balancedMin := priceAt third,
      balancedMax := priceAt (min (third * 2) (sorted.length - 1)),
      premiumMin := priceAt (min (third * 2 + 1) (sorted.length - 1)) }
  else
    { budgetMax := minPrice + priceRange * (33 / 100),
      balancedMin := minPrice + priceRange * (33 / 100),
      balancedMax := minPrice + priceRange * (67 / 100),
      premiumMin := minPrice + priceRange * (67 / 100) }

/-- The three bundles returned by a successful `buildCarts`. -/
structure BuildResult where
  budget : List CartItem
  balanced : List CartItem
  premium : List CartItem
deriving DecidableEq, Repr

/-- `buildCarts` (route.ts); `throw` is modelled as `Except.error` carrying
the thrown message.  The `provider` and `preference` parameters are accepted
and ignored exactly as in the source. -/
def buildCarts (candidates : List SearchResult) (provider : String)
    (query : String) (preference : Option String) (audience : Option Audience)
    (scenarioId : Option String) (allowUnisexMix : Bool)
    (anchorProductId : Option String) : Except String BuildResult :=
  let products := bundlePool candidates query audience scenarioId allowUnisexMix
  if products.length < 3 then
    Except.error "Not enough products after filtering"
  else
    let bounds := tierBounds products
    let templates := templatesForOpt scenarioId audience
    let budgetBundle := buildTierBundle templates products query .budget bounds anchorProductId
    let balancedBundle := buildTierBundle templates products query .balanced bounds anchorProductId
    let premiumBundle := buildTierBundle templates products query .premium bounds anchorProductId
    if budgetBundle.length = 0 ∨ balancedBundle.length = 0 ∨ premiumBundle.length = 0 then
      let missingTiers :=
        (if budgetBundle.length = 0 then ["budget"] else []) ++
        (if balancedBundle.length = 0 then ["balanced"] else []) ++
        (if premiumBundle.length = 0 then ["premium"] else [])
      let availableCategories :=
        String.intercalate ", " (products.map (·.category)).dedup
      let scenarioStr := match scenarioId with
        | some sc => if sc = "" then "none" else sc
        | none => "none"
      let audienceStr := match audience with
        | some .men => "men"
        | some .women => "women"
        | some .unisex => "unisex"
        | none => "none"
      Except.error ("Could not build complete bundles for " ++
        String.intercalate ", " missingTiers ++ " tier(s). Scenario: " ++
        scenarioStr ++ ", Audience: " ++ audienceStr ++
        ", Templates available: " ++ (if templates.length > 0 then "true" else "false") ++
        ", Products: " ++ toString products.length ++
        ", Categories: " ++ (if availableCategories = "" then "none" else availableCategories))
    else
      Except.ok { budget := budgetBundle, balanced := balancedBundle, premium := premiumBundle }

/-! ## Claim C1 — bundle shape -/
/-- The shape every returned bundle actually has: non-empty, and either a
validated template bundle (one item per template role — 3 or 4 items, each
with a distinct template role) or a fallback bundle of at most 3 items. -/
def bundleWellFormed (templates : List RoleTemplate) (b : List CartItem) : Prop :=
  1 ≤ b.length ∧
  ((∃ t ∈ templates, b.length = t.roles.length ∧ (b.map CartItem.role).Nodup ∧
      ∀ it ∈ b, it.role ∈ t.roles.map Prod.fst) ∨
    b.length ≤ 3)

/-! ## Concrete bundle-side instances -/
/-- A men's `nyc_dinner` product for bundle witnesses. -/
def mkDinnerProduct (id cat color : String) (price : ℚ) : Product :=
  mkProduct id cat color price "Plain" "none" .men "nyc_dinner"

def wShirt : Product := mkDinnerProduct "s1" "Shirts" "Navy" 100

def wChino : Product := mkDinnerProduct "ch1" "Chinos" "Gray" 100

def wLoafer : Product := mkDinnerProduct "lf1" "Loafers" "Brown" 100

def wBlazer : Product := mkDinnerProduct "bl1" "Blazers" "Navy" 100

/-- Candidate pool: one product per role of the four-role `nyc_dinner` men
template, all at the same price so every tier sees the whole pool. -/
def c1cand : List SearchResult :=
  [⟨wShirt, 50⟩, ⟨wChino, 40⟩, ⟨wLoafer, 30⟩, ⟨wBlazer, 20⟩]

/-- Candidate pool whose anchor (`anch`, price 1000) skews the tier
boundaries. -/
def c5cand : List SearchResult :=
  [⟨mkDinnerProduct "p1" "Shirts" "Navy" 100, 50⟩,
   ⟨mkDinnerProduct "p2" "Chinos" "Gray" 200, 40⟩,
   ⟨mkDinnerProduct "p3" "Loafers" "Brown" 300, 30⟩,
   ⟨mkDinnerProduct "anch" "Blazers" "Navy" 1000, 20⟩]

/-- A pool of only two surviving products. -/
def c8cand : List SearchResult :=
  [⟨wShirt, 50⟩, ⟨mkDinnerProduct "s2" "Shirts" "Navy" 90, 40⟩]

/-! ## src/lib/catalog.ts — scenario-based catalog generation -/
/-- Case-insensitive prefix test (for the `gi` regex replacements). -/
def ciIsPrefixOf : List Char → List Char → Bool
  | [], _ => true
  | _ :: _, [] => false
  | p :: ps, c :: cs => (p.toLower == c.toLower) && ciIsPrefixOf ps cs

/-- Global case-insensitive plain-substring replacement (JS
`s.replace(/pat/gi, rep)` for a pattern without metacharacters); `fuel`
bounds the structural recursion, `s.length` always suffices. -/
def replaceCIFrom (pat rep : List Char) : ℕ → List Char → List Char
  | 0, s => s
  | _ + 1, [] => []
  | fuel + 1, c :: t =>
    if !pat.isEmpty && ciIsPrefixOf pat (c :: t) then
      rep ++ replaceCIFrom pat rep fuel ((c :: t).drop pat.length)
    else
      c :: replaceCIFrom pat rep fuel t

def strReplaceCI (s pat rep : String) : String :=
  ⟨replaceCIFrom pat.data rep.data s.data.length s.data⟩

/-- Case-insensitive word-boundary test, `\b pat \b` with the `i` flag. -/
def containsWordCIFrom (pat : List Char) : Option Char → List Char → Bool
  | prev, s =>
    ((match prev with | none => true | some c => !(isWordChar c)) &&
      ciIsPrefixOf pat s &&
      (match s.drop pat.length with | [] => true | c :: _ => !(isWordChar c)))
    || (match s with | [] => false | c :: t => containsWordCIFrom pat (some c) t)

def containsWordCI (s pat : String) : Bool := containsWordCIFrom pat.data none s.data

/-- Global case-insensitive word-boundary replacement (`/\b pat \b/gi`). -/
def replaceWordCIFrom (pat rep : List Char) : ℕ → Option Char → List Char → List Char
  | 0, _, s => s
  | _ + 1, _, [] => []
  | fuel + 1, prev, c :: t =>
    if !pat.isEmpty &&
        (match prev with | none => true | some c' => !(isWordChar c')) &&
        ciIsPrefixOf pat (c :: t) &&
        (match (c :: t).drop pat.length with | [] => true | c' :: _ => !(isWordChar c')) then
      rep ++ replaceWordCIFrom pat rep fuel (some (pat.getLastD c)) ((c :: t).drop pat.length)
    else
      c :: replaceWordCIFrom pat rep fuel (some c) t

def strReplaceWordCI (s pat rep : String) : String :=
  ⟨replaceWordCIFrom pat.data rep.data s.data.length none s.data⟩

/-- Global replacement for `/\bdress(es)?\b/gi`: at a word boundary try the
greedy `dresses` first, then `dress`, each requiring a trailing word
boundary. -/
def replaceDressFrom (rep : List Char) : ℕ → Option Char → List Char → List Char
  | 0, _, s => s
  | _ + 1, _, [] => []
  | fuel + 1, prev, c :: t =>
    let s := c :: t
    let prevOk : Bool := match prev with | none => true | some c' => !(isWordChar c')
    if prevOk && ciIsPrefixOf ("dresses".data) s &&
        (match s.drop 7 with | [] => true | c' :: _ => !(isWordChar c')) then
      rep ++ replaceDressFrom rep fuel (some 's') (s.drop 7)
    else if prevOk && ciIsPrefixOf ("dress".data) s &&
        (match s.drop 5 with | [] => true | c' :: _ => !(isWordChar c')) then
      rep ++ replaceDressFrom rep fuel (some 's') (s.drop 5)
    else
      c :: replaceDressFrom rep fuel (some c) t

def strReplaceDress (s rep : String) : String :=
  ⟨replaceDressFrom rep.data s.data.length none s.data⟩

/-- JS `String(n).padStart(3, "0")`. -/
def padStart3 (s : String) : String :=
  if s.length ≥ 3 then s else ⟨List.replicate (3 - s.length) '0' ++ s.data⟩

/-- Hero product entry of a scenario. -/
structure HeroProduct where
  id : String
  category : String
  color : String
  title : String
  bundleRole : String
  price : ℚ
deriving DecidableEq, Repr

/-- `Scenario` (catalog.ts); the price and delivery ranges are the integer
bounds of the source data. -/
structure Scenario where
  id : String
  name : String
  formality : String
  palette : String
  colors : List String
  priceMin : ℕ
  priceMax : ℕ
  occasionTags : List String
  deliveryMin : ℕ
  deliveryMax : ℕ
  season : String
  heroProducts : Audience → List HeroProduct

def BRANDS : List String :=
  ["StyleCraft", "UrbanEdge", "ClassicWear", "ModernFit", "EliteFashion",
   "TrendSet", "PremiumStyle", "FashionHub", "DesignerWear", "LuxuryBrand"]

def FITS : List String := ["Slim", "Regular", "Relaxed", "Oversized", "Fitted"]

def SIZES : List String := ["XS", "S", "M", "L", "XL", "XXL"]

def STYLES : List String :=
  ["Minimalist", "Vintage", "Contemporary", "Bohemian", "Classic",
   "Streetwear", "Elegant", "Sporty", "Casual", "Formal"]

/-- `getScenarioPrefix` (catalog.ts). -/
def getScenarioPrefix (scenarioId : String) : String :=
  if scenarioId = "nyc_dinner" then "nyc"
  else if scenarioId = "summer_wedding" then "wed"
  else if scenarioId = "biz_travel" then "trv"
  else if scenarioId = "chi_winter" then "chi"
  else if scenarioId = "campus" then "cmp"
  else ⟨scenarioId.data.take 3⟩

def nycDinnerScenario : Scenario :=
  { id := "nyc_dinner", name := "NYC Work Dinner", formality := "smart_casual",
    palette := "neutral", colors := ["Navy", "Gray", "Black", "White", "Beige"],
    priceMin := 89, priceMax := 450, occasionTags := ["Work", "Evening", "Office"],
    deliveryMin := 1, deliveryMax := 2, season := "all",
    heroProducts := fun
      | .men =>
        [⟨"prod-nyc-men-001", "Blazers", "Navy", "Navy Smart Blazer", "anchor", 289⟩,
         ⟨"prod-nyc-men-002", "Shirts", "White", "Crisp White Dress Shirt", "core", 89⟩,
         ⟨"prod-nyc-men-003", "Chinos", "Gray", "Gray Chino Trousers", "core", 129⟩,
         ⟨"prod-nyc-men-004", "Loafers", "Brown", "Brown Leather Loafers", "core", 199⟩,
         ⟨"prod-nyc-men-005", "Shirts", "Navy", "Navy Button-Down Shirt", "add_on", 79⟩,
         ⟨"prod-nyc-men-006", "Blazers", "Black", "Classic Black Blazer", "add_on", 279⟩]
      | .women =>
        [⟨"prod-nyc-wom-001", "Blazers", "Navy", "Navy Tailored Blazer", "anchor", 299⟩,
         ⟨"prod-nyc-wom-002", "Blouses", "White", "Silk White Blouse", "core", 89⟩,
         ⟨"prod-nyc-wom-003", "Trousers", "Gray", "Gray Wide-Leg Trousers", "core", 119⟩,
         ⟨"prod-nyc-wom-004", "Heels", "Black", "Black Pumps", "core", 149⟩,
         ⟨"prod-nyc-wom-005", "Clutches", "Black", "Evening Clutch", "add_on", 89⟩,
         ⟨"prod-nyc-wom-006", "Dresses", "Navy", "Navy Wrap Dress", "add_on", 159⟩]
      | .unisex =>
        [⟨"prod-nyc-uni-001", "Blazers", "Navy", "Unisex Navy Blazer", "anchor", 269⟩,
         ⟨"prod-nyc-uni-002", "Overshirts", "White", "White Overshirt", "core", 79⟩,
         ⟨"prod-nyc-uni-003", "Trousers", "Gray", "Gray Tailored Trousers", "core", 109⟩,
         ⟨"prod-nyc-uni-004", "Sneakers", "White", "White Minimalist Sneakers", "core", 129⟩,
         ⟨"prod-nyc-uni-005", "Backpacks", "Black", "Leather Backpack", "add_on", 199⟩,
         ⟨"prod-nyc-uni-006", "Sunglasses", "Black", "Classic Aviators", "add_on", 89⟩] }

def summerWeddingScenario : Scenario :=
  { id := "summer_wedding", name := "Summer Outdoor Wedding", formality := "festive",
    palette := "warm", colors := ["Beige", "Navy", "Pink", "White", "Yellow"],
    priceMin := 79, priceMax := 350, occasionTags := ["Wedding", "Party", "Evening"],
    deliveryMin := 2, deliveryMax := 5, season := "summer",
    heroProducts := fun
      | .men =>
        [⟨"prod-wed-men-001", "Blazers", "Navy", "Navy Linen Blazer", "anchor", 249⟩,
         ⟨"prod-wed-men-002", "Shirts", "White", "White Linen Shirt", "core", 89⟩,
         ⟨"prod-wed-men-003", "Chinos", "Beige", "Beige Chinos", "core", 119⟩,
         ⟨"prod-wed-men-004", "Loafers", "Brown", "Brown Suede Loafers", "core", 149⟩,
         ⟨"prod-wed-men-005", "Polos", "Navy", "Navy Polo Shirt", "add_on", 69⟩,
         ⟨"prod-wed-men-006", "Derbies", "Brown", "Brown Leather Derbies", "add_on", 179⟩]
      | .women =>
        [⟨"prod-wed-wom-001", "Dresses", "Beige", "Elegant Beige Midi Dress", "anchor", 189⟩,
         ⟨"prod-wed-wom-002", "Blazers", "Navy", "Navy Summer Blazer", "core", 249⟩,
         ⟨"prod-wed-wom-003", "Heels", "Nude", "Nude Heels", "core", 129⟩,
         ⟨"prod-wed-wom-004", "Clutches", "Beige", "Beige Clutch Bag", "add_on", 89⟩,
         ⟨"prod-wed-wom-005", "Dresses", "Pink", "Floral Pink Dress", "add_on", 159⟩,
         ⟨"prod-wed-wom-006", "Blouses", "White", "White Floral Blouse", "add_on", 79⟩]
      | .unisex =>
        [⟨"prod-wed-uni-001", "Jackets", "Beige", "Beige Linen Jacket", "anchor", 199⟩,
         ⟨"prod-wed-uni-002", "Overshirts", "White", "White Linen Overshirt", "core", 89⟩,
         ⟨"prod-wed-uni-003", "Trousers", "Navy", "Navy Linen Trousers", "core", 119⟩,
         ⟨"prod-wed-uni-004", "Sneakers", "White", "White Canvas Sneakers", "core", 99⟩,
         ⟨"prod-wed-uni-005", "Sunglasses", "Brown", "Brown Aviators", "add_on", 79⟩,
         ⟨"prod-wed-uni-006", "Backpacks", "Beige", "Beige Canvas Backpack", "add_on", 89⟩] }

def bizTravelScenario : Scenario :=
  { id := "biz_travel", name := "Business Travel Capsule", formality := "smart_casual",
    palette := "neutral", colors := ["Navy", "Gray", "Black", "White", "Beige"],
    priceMin := 59, priceMax := 320, occasionTags := ["Travel", "Work", "Office"],
    deliveryMin := 1, deliveryMax := 3, season := "all",
    heroProducts := fun
      | .men =>
        [⟨"prod-trv-men-001", "Blazers", "Navy", "Wrinkle-Free Travel Blazer", "anchor", 279⟩,
         ⟨"prod-trv-men-002", "Shirts", "White", "Non-Iron Dress Shirt", "core", 79⟩,
         ⟨"prod-trv-men-003", "Chinos", "Navy", "Stretch Travel Chinos", "core", 119⟩,
         ⟨"prod-trv-men-004", "Sneakers", "White", "Comfortable White Sneakers", "core", 129⟩,
         ⟨"prod-trv-men-005", "Shirts", "Blue", "Wrinkle-Resistant Blue Shirt", "add_on", 69⟩,
         ⟨"prod-trv-men-006", "Polos", "Navy", "Navy Travel Polo", "add_on", 59⟩]
      | .women =>
        [⟨"prod-trv-wom-001", "Blazers", "Navy", "Wrinkle-Free Blazer", "anchor", 269⟩,
         ⟨"prod-trv-wom-002", "Blouses", "White", "Non-Iron White Blouse", "core", 79⟩,
         ⟨"prod-trv-wom-003", "Trousers", "Navy", "Stretch Travel Trousers", "core", 109⟩,
         ⟨"prod-trv-wom-004", "Sneakers", "White", "Comfortable White Sneakers", "core", 119⟩,
         ⟨"prod-trv-wom-005", "Clutches", "Black", "Travel Clutch", "add_on", 89⟩,
         ⟨"prod-trv-wom-006", "Blouses", "Blue", "Wrinkle-Resistant Blue Blouse", "add_on", 69⟩]
      | .unisex =>
        [⟨"prod-trv-uni-001", "Jackets", "Navy", "Travel Jacket", "anchor", 249⟩,
         ⟨"prod-trv-uni-002", "Overshirts", "White", "White Travel Overshirt", "core", 79⟩,
         ⟨"prod-trv-uni-003", "Trousers", "Navy", "Stretch Travel Trousers", "core", 109⟩,
         ⟨"prod-trv-uni-004", "Sneakers", "White", "Comfortable White Sneakers", "core", 119⟩,
         ⟨"prod-trv-uni-005", "Backpacks", "Black", "Carry-On Travel Backpack", "add_on", 199⟩,
         ⟨"prod-trv-uni-006", "Tees", "Navy", "Navy Travel Tee", "add_on", 39⟩] }

def chiWinterScenario : Scenario :=
  { id := "chi_winter", name := "Chicago Winter Commute", formality := "smart_casual",
    palette := "cool", colors := ["Navy", "Gray", "Black", "Brown", "Olive"],
    priceMin := 69, priceMax := 380, occasionTags := ["Work", "Office", "Casual"],
    deliveryMin := 2, deliveryMax := 4, season := "winter",
    heroProducts := fun
      | .men =>
        [⟨"prod-chi-men-001", "Blazers", "Navy", "Warm Wool Blazer", "anchor", 329⟩,
         ⟨"prod-chi-men-002", "Chinos", "Gray", "Insulated Winter Chinos", "core", 139⟩,
         ⟨"prod-chi-men-003", "Shirts", "White", "Long-Sleeve Dress Shirt", "core", 89⟩,
         ⟨"prod-chi-men-004", "Sneakers", "Black", "Weatherproof Black Sneakers", "core", 149⟩,
         ⟨"prod-chi-men-005", "Blazers", "Black", "Classic Black Blazer", "add_on", 279⟩,
         ⟨"prod-chi-men-006", "Polos", "Navy", "Long-Sleeve Polo", "add_on", 69⟩]
      | .women =>
        [⟨"prod-chi-wom-001", "Blazers", "Navy", "Warm Wool Blazer", "anchor", 319⟩,
         ⟨"prod-chi-wom-002", "Trousers", "Gray", "Insulated Winter Trousers", "core", 129⟩,
         ⟨"prod-chi-wom-003", "Blouses", "White", "Long-Sleeve Blouse", "core", 79⟩,
         ⟨"prod-chi-wom-004", "Sneakers", "Black", "Weatherproof Black Sneakers", "core", 139⟩,
         ⟨"prod-chi-wom-005", "Clutches", "Brown", "Leather Briefcase", "add_on", 229⟩,
         ⟨"prod-chi-wom-006", "Blazers", "Black", "Classic Black Blazer", "add_on", 269⟩]
      | .unisex =>
        [⟨"prod-chi-uni-001", "Jackets", "Navy", "Warm Wool Jacket", "anchor", 299⟩,
         ⟨"prod-chi-uni-002", "Trousers", "Gray", "Insulated Winter Trousers", "core", 119⟩,
         ⟨"prod-chi-uni-003", "Hoodies", "Black", "Warm Fleece Hoodie", "core", 89⟩,
         ⟨"prod-chi-uni-004", "Sneakers", "Black", "Weatherproof Black Sneakers", "core", 139⟩,
         ⟨"prod-chi-uni-005", "Backpacks", "Brown", "Leather Backpack", "add_on", 239⟩,
         ⟨"prod-chi-uni-006", "Beanies", "Black", "Wool Beanie", "add_on", 29⟩] }

def campusScenario : Scenario :=
  { id := "campus", name := "Back-to-School Essentials", formality := "relaxed",
    palette := "cool", colors := ["Blue", "Black", "Gray", "White", "Navy"],
    priceMin := 29, priceMax := 180, occasionTags := ["Casual", "Sports", "Travel"],
    deliveryMin := 3, deliveryMax := 7, season := "all",
    heroProducts := fun
      | .men =>
        [⟨"prod-cmp-men-001", "Tees", "Blue", "Classic Blue T-Shirt", "anchor", 29⟩,
         ⟨"prod-cmp-men-002", "Jeans", "Blue", "Comfortable Blue Jeans", "core", 79⟩,
         ⟨"prod-cmp-men-003", "Sneakers", "White", "White Athletic Sneakers", "core", 89⟩,
         ⟨"prod-cmp-men-004", "Tees", "Gray", "Gray Casual T-Shirt", "add_on", 24⟩,
         ⟨"prod-cmp-men-005", "Sneakers", "Black", "Black Everyday Sneakers", "add_on", 79⟩,
         ⟨"prod-cmp-men-006", "Polos", "Navy", "Navy Polo Shirt", "add_on", 49⟩]
      | .women =>
        [⟨"prod-cmp-wom-001", "Tees", "Blue", "Classic Blue T-Shirt", "anchor", 29⟩,
         ⟨"prod-cmp-wom-002", "Trousers", "Navy", "Comfortable Navy Trousers", "core", 69⟩,
         ⟨"prod-cmp-wom-003", "Sneakers", "White", "White Athletic Sneakers", "core", 89⟩,
         ⟨"prod-cmp-wom-004", "Clutches", "Black", "Backpack Style Bag", "add_on", 59⟩,
         ⟨"prod-cmp-wom-005", "Tees", "Gray", "Gray Casual T-Shirt", "add_on", 24⟩,
         ⟨"prod-cmp-wom-006", "Flats", "Black", "Black Ballet Flats", "add_on", 49⟩]
      | .unisex =>
        [⟨"prod-cmp-uni-001", "Tees", "Blue", "Classic Blue T-Shirt", "anchor", 29⟩,
         ⟨"prod-cmp-uni-002", "Hoodies", "Gray", "Gray Campus Hoodie", "core", 69⟩,
         ⟨"prod-cmp-uni-003", "Sneakers", "White", "White Athletic Sneakers", "core", 89⟩,
         ⟨"prod-cmp-uni-004", "Backpacks", "Black", "Backpack Style Bag", "add_on", 59⟩,
         ⟨"prod-cmp-uni-005", "Tees", "Black", "Black Casual T-Shirt", "add_on", 24⟩,
         ⟨"prod-cmp-uni-006", "Beanies", "Navy", "Navy Beanie", "add_on", 19⟩] }

def SCENARIOS : List Scenario :=
  [nycDinnerScenario, summerWeddingScenario, bizTravelScenario,
   chiWinterScenario, campusScenario]

/-- Decimal digit character. -/
def digitChar : ℕ → Char
  | 0 => '0' | 1 => '1' | 2 => '2' | 3 => '3' | 4 => '4'
  | 5 => '5' | 6 => '6' | 7 => '7' | 8 => '8' | _ => '9'

def natToStrAux : ℕ → ℕ → List Char
  | 0, _ => []
  | fuel + 1, n => if n < 10 then [digitChar n] else natToStrAux fuel (n / 10) ++ [digitChar (n % 10)]

/-- JS `String(n)` for a non-negative integer. -/
def natToStr (n : ℕ) : String := ⟨natToStrAux (n + 1) n⟩

/-- `Math.floor` on a rational (rounds toward minus infinity). -/
def ratFloor (q : ℚ) : ℤ := Int.fdiv q.num q.den

/-- The forbidden-word cleanup applied to men's product titles
(`generateProductForScenario`, both the hero and the generated branch):
`/blouse/gi → "Shirt"`, standalone `/\bdress(es)?\b/gi → category`
unless "dress shirt" occurs, then `/\btop\b/gi → "Shirt"` unless the
word "stop" occurs. -/
def cleanTitleForMen (title category : String) : String :=
  let lowerTitle := strToLower title
  let t1 :=
    if jsIncludes lowerTitle "blouse" ||
        (jsIncludes lowerTitle "dress" && !jsIncludes lowerTitle "dress shirt") then
      let ta := if jsIncludes lowerTitle "blouse" then strReplaceCI title "blouse" "Shirt" else title
      if jsIncludes lowerTitle "dress" && !jsIncludes lowerTitle "dress shirt" then
        strReplaceDress ta category
      else ta
    else title
  if containsWordCI t1 "top" && !containsWordCI t1 "stop" then
    strReplaceWordCI t1 "top" "Shirt"
  else t1

/-- `generateProductForScenario` (src/lib/catalog.ts).  `Math.random()` is
modelled as a stream `rand : ℕ → ℚ` read at increasing positions; `pos` is
the next unread position and the second component of the result is the
position after this product's draws.  When the product is out of stock the
`stockCount` draw is skipped (the JS conditional expression does not
evaluate `Math.random()` then). -/
def generateProductForScenario (rand : ℕ → ℚ) (pos : ℕ) (scenario : Scenario)
    (audience : Audience) (index : ℕ) (isHero : Bool) : Product × ℕ :=
  let scenarioPrefix := getScenarioPrefix scenario.id
  let audiencePrefix := match audience with
    | .men => "men" | .women => "wom" | .unisex => "uni"
  let positionalId :=
    "prod-" ++ scenarioPrefix ++ "-" ++ audiencePrefix ++ "-" ++ padStart3 (natToStr (index + 1))
  let heroProduct : Option HeroProduct :=
    if isHero then (scenario.heroProducts audience).find? (fun h => h.id == positionalId)
    else none
  let categories := AUDIENCE_CATEGORIES audience
  let category0 := match heroProduct with
    | some h => h.category
    | none => categories.getD (index % categories.length) ""
  let category :=
    if audience = .men && category0 == "Tops" then
      let found := match categories.find? (fun c => !(c == "Tops")) with
        | some c => c | none => ""
      if jsTruthyStr (some found) then found else categories.getD 0 ""
    else category0
  let color := match heroProduct with
    | some h => h.color
    | none => scenario.colors.getD (index % scenario.colors.length) ""
  let brand := BRANDS.getD (index % BRANDS.length) ""
  let fit := FITS.getD (index % FITS.length) ""
  let size := SIZES.getD (index % SIZES.length) ""
  let style := STYLES.getD (index % STYLES.length) ""
  let occasionTags := scenario.occasionTags ++
    (if scenario.formality == "smart_casual" then ["Casual"] else [])
  let price : ℚ := match heroProduct with
    | some h => h.price
    | none => (scenario.priceMin : ℚ) +
        (((index * 17) % (scenario.priceMax - scenario.priceMin + 1) : ℕ) : ℚ)
  let title0 := match heroProduct with
    | some h => h.title
    | none => brand ++ " " ++ category ++ " - " ++ color
  let title := match audience with
    | .men => cleanTitleForMen title0 category
    | _ => title0
  let descriptions := [
    "Perfect for " ++ strToLower scenario.name ++ ". " ++ color ++ " " ++
      strToLower category ++ " from " ++ brand ++ ".",
    "Stylish " ++ strToLower category ++ " featuring " ++ strToLower style ++
      " design. Ideal for " ++ strToLower scenario.name ++ ".",
    "Comfortable " ++ strToLower fit ++ " fit " ++ strToLower category ++ " in " ++
      strToLower color ++ ".",
    "High-quality " ++ strToLower category ++ " by " ++ brand ++ ". Designed for " ++
      strToLower scenario.name ++ "."]
  let description0 := descriptions.getD (index % descriptions.length) ""
  let description := match audience with
    | .men =>
      let lowerDesc := strToLower description0
      if jsIncludes lowerDesc "top" || jsIncludes lowerDesc "blouse" ||
          jsIncludes lowerDesc "dress" then
        strReplaceCI (strReplaceCI (strReplaceCI description0 "top" "shirt")
          "blouse" "shirt") "dress" (strToLower category)
      else description0
    | _ => description0
  let bundleRole := match heroProduct with
    | some h => h.bundleRole
    | none => if index < 2 then "anchor" else if index < 4 then "core" else "add_on"
  let inStock := rand pos > 1 / 10
  let stockCount : ℚ := if inStock then ((ratFloor (rand (pos + 1) * 50) : ℤ) : ℚ) + 5 else 0
  let posAfterStock := if inStock then pos + 2 else pos + 1
  let deliveryDays : ℚ := (scenario.deliveryMin : ℚ) +
    ((ratFloor (rand posAfterStock *
      ((scenario.deliveryMax : ℚ) - (scenario.deliveryMin : ℚ) + 1)) : ℤ) : ℚ)
  let productId := match heroProduct with
    | some h => h.id
    | none => positionalId
  let hasSizeFit :=
    !(["Watches", "Handbags", "Clutches", "Sunglasses", "Beanies", "Backpacks"].contains category)
  ({ id := productId, title := title, brand := brand, price := price,
     imageUrl := "/api/images/" ++ productId, category := category, color := color,
     size := if hasSizeFit then some size else none,
     fit := if hasSizeFit then some fit else none,
     occasionTags := occasionTags, style := style, description := description,
     scenarioId := scenario.id, audience := audience, formality := scenario.formality,
     palette := scenario.palette, bundleRole := bundleRole,
     inStock := inStock, stockCount := stockCount, deliveryDays := deliveryDays,
     season := scenario.season }, posAfterStock + 1)

/-- The (scenario, audience, index, isHero) generation tasks of
`generateCatalog`, in execution order: for each scenario and audience, six
hero slots (kept only when the hero list has an entry at that index) then
54 generated products at indices 6..59. -/
def catalogTasks : List (Scenario × Audience × ℕ × Bool) :=
  SCENARIOS.bind (fun scenario =>
    [Audience.men, Audience.women, Audience.unisex].bind (fun audience =>
      ((List.range 6).filterMap (fun i =>
        if i < (scenario.heroProducts audience).length then
          some (scenario, audience, i, true)
        else none)) ++
      (List.range 54).map (fun j => (scenario, audience, j + 6, false))))

/-- Run the generation tasks in order, threading the random-stream position. -/
def genFrom (rand : ℕ → ℚ) : ℕ → List (Scenario × Audience × ℕ × Bool) → List Product
  | _, [] => []
  | pos, t :: rest =>
    (generateProductForScenario rand pos t.1 t.2.1 t.2.2.1 t.2.2.2).1 ::
      genFrom rand (generateProductForScenario rand pos t.1 t.2.1 t.2.2.1 t.2.2.2).2 rest

/-- `generateCatalog` (src/lib/catalog.ts), parameterised by the
`Math.random()` stream. -/
def generateCatalog (rand : ℕ → ℚ) : List Product :=
  genFrom rand 0 catalogTasks

/-- Overwrite the three randomised fields of a product with constants. -/
def eraseStock (p : Product) : Product :=
  { p with inStock := true, stockCount := 0, deliveryDays := 0 }

theorem insertCmp_perm (c : α → α → ℚ) (x : α) (l : List α) :
    List.Perm (insertCmp c x l) (x :: l) := by
  induction l with
  | nil => simp [insertCmp]
  | cons y ys ih =>
    simp only [insertCmp]
    split
    · exact List.Perm.refl _
    · exact ((ih.cons y).trans (List.Perm.swap x y ys))

theorem sortCmp_perm (c : α → α → ℚ) (l : List α) : List.Perm (sortCmp c l) l := by
  suffices h : ∀ (l acc : List α), List.Perm (l.foldl (fun acc x => insertCmp c x acc) acc) (acc ++ l) by
    simpa using h l []
  intro l
  induction l with
  | nil => intro acc; simp
  | cons x xs ih =>
    intro acc
    simp only [List.foldl_cons]
    refine (ih (insertCmp c x acc)).trans ?_
    have h1 : List.Perm (insertCmp c x acc ++ xs) ((x :: acc) ++ xs) :=
      (insertCmp_perm c x acc).append_right xs
    refine h1.trans ?_
    simpa using (@List.perm_middle _ x acc xs).symm

theorem mem_sortCmp {c : α → α → ℚ} {l : List α} {a : α} :
    a ∈ sortCmp c l ↔ a ∈ l := (sortCmp_perm c l).mem_iff

theorem mem_insertCmp {c : α → α → ℚ} {l : List α} {x a : α} :
    a ∈ insertCmp c x l ↔ a = x ∨ a ∈ l := by
  rw [(insertCmp_perm c x l).mem_iff]; simp

/-- Pairwise order of the sorted list: the comparator need only be
antisymmetric globally and transitive on the elements being sorted. -/
theorem sortCmp_pairwise (c : α → α → ℚ) (l : List α)
    (hanti : ∀ a b, c a b = -(c b a))
    (htrans : ∀ a b d, a ∈ l → b ∈ l → d ∈ l → c a b ≤ 0 → c b d ≤ 0 → c a d ≤ 0) :
    (sortCmp c l).Pairwise (fun a b => c a b ≤ 0) := by
  have hins : ∀ (x : α) (acc : List α), x ∈ l → (∀ a ∈ acc, a ∈ l) →
      acc.Pairwise (fun a b => c a b ≤ 0) →
      (insertCmp c x acc).Pairwise (fun a b => c a b ≤ 0) := by
    intro x acc hx hsub hpw
    induction acc with
    | nil => simp [insertCmp]
    | cons y ys ih =>
      have hy : y ∈ l := hsub y (by simp)
      have hsub' : ∀ a ∈ ys, a ∈ l := fun a ha => hsub a (by simp [ha])
      have hpw' := (List.pairwise_cons.mp hpw).2
      have hyrel := (List.pairwise_cons.mp hpw).1
      simp only [insertCmp]
      split
      · rename_i hlt
        refine List.pairwise_cons.mpr ⟨?_, hpw⟩
        intro b hb
        rcases List.mem_cons.mp hb with hbe | hb
        · subst hbe; exact le_of_lt hlt
        · exact htrans x y b hx hy (hsub' b hb) (le_of_lt hlt) (hyrel b hb)
      · rename_i hnlt
        refine List.pairwise_cons.mpr ⟨?_, ih hsub' hpw'⟩
        intro b hb
        rcases mem_insertCmp.mp hb with hbe | hb
        · subst hbe
          have h1 : 0 ≤ c b y := le_of_not_lt hnlt
          have h2 := hanti b y
          linarith
        · exact hyrel b hb
  suffices h : ∀ (xs acc : List α), (∀ a ∈ xs, a ∈ l) → (∀ a ∈ acc, a ∈ l) →
      acc.Pairwise (fun a b => c a b ≤ 0) →
      (xs.foldl (fun acc x => insertCmp c x acc) acc).Pairwise (fun a b => c a b ≤ 0) by
    exact h l [] (fun a ha => ha) (by simp) (by simp)
  intro xs
  induction xs with
  | nil => intro acc _ _ hpw; simpa using hpw
  | cons x xs ih =>
    intro acc hxs hacc hpw
    simp only [List.foldl_cons]
    refine ih (insertCmp c x acc) (fun a ha => hxs a (by simp [ha])) ?_ ?_
    · intro a ha
      rcases mem_insertCmp.mp ha with rfl | ha
      · exact hxs a (by simp)
      · exact hacc a ha
    · exact hins x acc (hxs x (by simp)) hacc hpw

/-! ## Membership lemmas for `searchProducts` -/
theorem head?_mem {l : List α} {a : α} (h : l.head? = some a) : a ∈ l := by
  cases l <;> simp_all

theorem stringMk_ne_empty (c : Char) (t : List Char) : (⟨c :: t⟩ : String) ≠ "" := by
  intro h
  have := congrArg String.data h
  simp at this

theorem mem_searchScored {products : List Product} {query : String}
    {audience : Option Audience} {sortBy : SortBy} {r : SearchResult}
    (hr : r ∈ searchScored products query audience sortBy) :
    r.product ∈ products ∧
      preFilter r.product
        { extractConstraints query audience with sortBy := some sortBy }
        audience = true := by
  simp only [searchScored] at hr
  split at hr
  · simp at hr
  · rw [mem_sortCmp] at hr
    rcases List.mem_filter.mp hr with ⟨hmem, _⟩
    rcases List.mem_map.mp hmem with ⟨p, hp, rfl⟩
    rcases List.mem_filter.mp hp with ⟨hpp, hpf⟩
    exact ⟨hpp, hpf⟩

theorem mem_searchProducts {products : List Product} {query : String}
    {limit : ℕ} {audience : Option Audience} {sortBy : SortBy} {r : SearchResult}
    (hr : r ∈ searchProducts products query limit audience sortBy) :
    r.product ∈ products ∧
      preFilter r.product
        { extractConstraints query audience with sortBy := some sortBy }
        audience = true := by
  simp only [searchProducts] at hr
  have hr' := List.mem_of_mem_take hr
  cases sortBy with
  | relevance => exact mem_searchScored hr'
  | price_asc => exact mem_searchScored (mem_sortCmp.mp hr')
  | price_desc => exact mem_searchScored (mem_sortCmp.mp hr')

/-- `preFilter` never reads `sortBy`. -/
theorem preFilter_sortBy_irrel (p : Product) (c : SearchConstraints)
    (s : Option SortBy) (aud : Option Audience) :
    preFilter p { c with sortBy := s } aud = preFilter p c aud := rfl

/-! ## Values produced by `extractConstraints` are never empty strings -/
theorem extract_category_ne_empty {query : String} {audience : Option Audience}
    {cat : String} (h : (extractConstraints query audience).category = some cat) :
    cat ≠ "" := by
  simp only [extractConstraints] at h
  rcases Option.map_eq_some'.mp h with ⟨v, hv, rfl⟩
  have hmem := List.mem_of_find?_eq_some hv
  revert hmem
  have : ∀ v ∈ CATEGORY_VOCAB, properCategory v ≠ "" := by decide
  exact fun hm => this v hm

theorem extract_color_ne_empty {query : String} {audience : Option Audience}
    {col : String} (h : (extractConstraints query audience).color = some col) :
    col ≠ "" := by
  simp only [extractConstraints] at h
  split at h
  · rcases Option.map_eq_some'.mp h with ⟨v, hv, rfl⟩
    have hmem := List.mem_of_find?_eq_some hv
    revert hmem
    have : ∀ v ∈ COLOR_VOCAB, properColor v ≠ "" := by decide
    exact fun hm => this v hm
  · simp at h

theorem extract_colorExclude_ne_empty {query : String} {audience : Option Audience}
    {col : String}
    (h : (extractConstraints query audience).colorExclude = some col) :
    col ≠ "" := by
  simp only [extractConstraints, extractColorExclude] at h
  have hmem := head?_mem h
  rcases List.mem_filterMap.mp hmem with ⟨kw, _, hkw⟩
  rcases hfp : findFirstPos (kwCaptureAt kw.data)
      (TYPO_CORRECTIONS.foldl (fun q e => replaceWordAll q e.1 e.2)
        (strToLower query)).data with _ | w
  · rw [hfp] at hkw; simp at hkw
  · rw [hfp] at hkw
    simp only at hkw
    split at hkw
    · rename_i hcontains
      have hcol : properColorExclude ⟨w⟩ = col := by
        simpa using hkw
      have hwne : strToLower ⟨w⟩ ≠ "" := by
        intro he
        rw [he] at hcontains
        revert hcontains
        decide
      have hwdata : w ≠ [] := by
        intro he
        apply hwne
        subst he
        decide
      subst hcol
      simp only [properColorExclude]
      split
      · decide
      · cases hw : w with
        | nil => exact absurd hw hwdata
        | cons c t =>
          simp only [capitalizeLower, hw]
          exact stringMk_ne_empty _ _
    · simp at hkw

/-! ## Claim C2 — PreFilter soundness of `searchProducts` -/
/-- C2 (amended): every result returned by `searchProducts` satisfies the hard
constraints extracted from the query — price at most `budgetMax` whenever
`budgetMax` is set to a positive amount (a zero budget is treated as unset by
the JS truthiness check), category equality, color equality, color-exclusion
inequality, and the audience category whitelist. -/
theorem searchProducts_preFilter_sound
    (products : List Product) (query : String) (limit : ℕ)
    (audience : Option Audience) (sortBy : SortBy) (r : SearchResult)
    (hr : r ∈ searchProducts products query limit audience sortBy) :
    (∀ b : ℚ, (extractConstraints query audience).budgetMax = some b → 0 < b →
      r.product.price ≤ b) ∧
    (∀ cat : String, (extractConstraints query audience).category = some cat →
      r.product.category = cat) ∧
    (∀ col : String, (extractConstraints query audience).color = some col →
      r.product.color = col) ∧
    (∀ col : String, (extractConstraints query audience).colorExclude = some col →
      r.product.color ≠ col) ∧
    (∀ a : Audience, audience = some a →
      r.product.category ∈ AUDIENCE_CATEGORIES a) := by
  have hpf := (mem_searchProducts hr).2
  rw [preFilter_sortBy_irrel] at hpf
  simp only [preFilter, Bool.and_eq_true] at hpf
  have haud := hpf.1.1.1.1.1.1.1.1.1
  have hbud := hpf.1.1.1.1.1.1.1.1.2
  have hcat := hpf.1.1.1.1.1.1.1.2
  have hcol := hpf.1.1.1.1.1.1.2
  have hexcl := hpf.1.1.1.1.1.2
  refine ⟨?_, ?_, ?_, ?_, ?_⟩
  · intro b hb hpos
    rw [hb] at hbud
    simp only [Bool.not_eq_true', Bool.and_eq_false_iff, bne_eq_false_iff_eq,
      decide_eq_false_iff_not, not_lt] at hbud
    rcases hbud with hb0 | hle
    · exact absurd hb0 (by intro h; rw [h] at hpos; exact lt_irrefl 0 hpos)
    · exact hle
  · intro cat hc
    have hne := extract_category_ne_empty hc
    rw [hc] at hcat
    simp only [Bool.not_eq_true', Bool.and_eq_false_iff,
      Bool.not_eq_false, String.isEmpty_iff, bne_eq_false_iff_eq] at hcat
    rcases hcat with he | hcat
    · exact absurd (by simpa [String.isEmpty_iff] using he) hne
    · exact hcat
  · intro col hc
    have hne := extract_color_ne_empty hc
    rw [hc] at hcol
    simp only [Bool.not_eq_true', Bool.and_eq_false_iff,
      Bool.not_eq_false, String.isEmpty_iff, bne_eq_false_iff_eq] at hcol
    rcases hcol with he | hcol
    · exact absurd (by simpa [String.isEmpty_iff] using he) hne
    · exact hcol
  · intro col hc
    have hne := extract_colorExclude_ne_empty hc
    rw [hc] at hexcl
    simp only [Bool.not_eq_true', Bool.and_eq_false_iff,
      Bool.not_eq_false, String.isEmpty_iff, beq_eq_false_iff_ne] at hexcl
    rcases hexcl with he | hexcl
    · exact absurd (by simpa [String.isEmpty_iff] using he) hne
    · intro he
      exact hexcl (by rw [he])
  · intro a ha
    rw [ha] at haud
    simpa using haud

/-! ## Claim C6 — price sorting and the score tie threshold -/
theorem priceAscCmp_anti (a b : SearchResult) :
    priceAscCmp a b = -(priceAscCmp b a) := by
  simp only [priceAscCmp]
  by_cases h : a.score ≠ b.score ∧ |a.score - b.score| > 5
  · have h' : b.score ≠ a.score ∧ |b.score - a.score| > 5 :=
      ⟨Ne.symm h.1, by rw [abs_sub_comm]; exact h.2⟩
    rw [if_pos h, if_pos h']; ring
  · have h' : ¬(b.score ≠ a.score ∧ |b.score - a.score| > 5) := by
      intro hc
      exact h ⟨Ne.symm hc.1, by rw [abs_sub_comm]; exact hc.2⟩
    rw [if_neg h, if_neg h']; ring

theorem priceDescCmp_anti (a b : SearchResult) :
    priceDescCmp a b = -(priceDescCmp b a) := by
  simp only [priceDescCmp]
  by_cases h : a.score ≠ b.score ∧ |a.score - b.score| > 5
  · have h' : b.score ≠ a.score ∧ |b.score - a.score| > 5 :=
      ⟨Ne.symm h.1, by rw [abs_sub_comm]; exact h.2⟩
    rw [if_pos h, if_pos h']; ring
  · have h' : ¬(b.score ≠ a.score ∧ |b.score - a.score| > 5) := by
      intro hc
      exact h ⟨Ne.symm hc.1, by rw [abs_sub_comm]; exact hc.2⟩
    rw [if_neg h, if_neg h']; ring

/-- The scored list does not depend on `sortBy` (the source stores it into
`constraints.sortBy`, which no filter or scoring step reads). -/
theorem searchScored_sortBy_irrel (products : List Product) (query : String)
    (audience : Option Audience) (s1 s2 : SortBy) :
    searchScored products query audience s1 = searchScored products query audience s2 := rfl

/-- C6 (amended): when every pair of scored candidates is within the 5-point
tie threshold, `price_asc` returns results in ascending price order and
`price_desc` in descending price order.  (With chains of near-ties bridging a
larger gap the comparator is intransitive and the pairwise property of the
original claim fails; see the counterexample.) -/
theorem searchProducts_price_sort_near_ties
    (products : List Product) (query : String) (limit : ℕ)
    (audience : Option Audience)
    (h : ∀ a ∈ searchScored products query audience SortBy.price_asc,
         ∀ b ∈ searchScored products query audience SortBy.price_asc,
         |a.score - b.score| ≤ 5) :
    (searchProducts products query limit audience SortBy.price_asc).Pairwise
      (fun a b => a.product.price ≤ b.product.price) ∧
    (searchProducts products query limit audience SortBy.price_desc).Pairwise
      (fun a b => b.product.price ≤ a.product.price) := by
  constructor
  · set L := searchScored products query audience SortBy.price_asc with hL
    have hcmp : ∀ a ∈ L, ∀ b ∈ L, priceAscCmp a b = a.product.price - b.product.price := by
      intro a ha b hb
      simp only [priceAscCmp]
      rw [if_neg]
      intro hc
      exact absurd (h a ha b hb) (not_le.mpr hc.2)
    have hpw : (sortCmp priceAscCmp L).Pairwise (fun a b => priceAscCmp a b ≤ 0) := by
      refine sortCmp_pairwise _ _ priceAscCmp_anti ?_
      intro a b d ha hb hd hab hbd
      rw [hcmp a ha b hb] at hab
      rw [hcmp b hb d hd] at hbd
      rw [hcmp a ha d hd]
      linarith
    have hpw' : (sortCmp priceAscCmp L).Pairwise
        (fun a b => a.product.price ≤ b.product.price) := by
      refine List.Pairwise.imp_of_mem ?_ hpw
      intro a b ha hb hab
      rw [hcmp a (mem_sortCmp.mp ha) b (mem_sortCmp.mp hb)] at hab
      linarith
    exact hpw'.sublist (List.take_sublist _ _)
  · set L := searchScored products query audience SortBy.price_desc with hL
    have hall : ∀ a ∈ L, ∀ b ∈ L, |a.score - b.score| ≤ 5 := by
      rw [hL, searchScored_sortBy_irrel products query audience SortBy.price_desc SortBy.price_asc]
      exact h
    have hcmp : ∀ a ∈ L, ∀ b ∈ L, priceDescCmp a b = b.product.price - a.product.price := by
      intro a ha b hb
      simp only [priceDescCmp]
      rw [if_neg]
      intro hc
      exact absurd (hall a ha b hb) (not_le.mpr hc.2)
    have hpw : (sortCmp priceDescCmp L).Pairwise (fun a b => priceDescCmp a b ≤ 0) := by
      refine sortCmp_pairwise _ _ priceDescCmp_anti ?_
      intro a b d ha hb hd hab hbd
      rw [hcmp a ha b hb] at hab
      rw [hcmp b hb d hd] at hbd
      rw [hcmp a ha d hd]
      linarith
    have hpw' : (sortCmp priceDescCmp L).Pairwise
        (fun a b => b.product.price ≤ a.product.price) := by
      refine List.Pairwise.imp_of_mem ?_ hpw
      intro a b ha hb hab
      rw [hcmp a (mem_sortCmp.mp ha) b (mem_sortCmp.mp hb)] at hab
      linarith
    exact hpw'.sublist (List.take_sublist _ _)

/-! ## Claim C7 — color and colorExclude are mutually exclusive -/
/-- C7: a single `extractConstraints` pass never sets both `color` and
`colorExclude`; the exclusion patterns are checked first and the inclusion
scan runs only when no exclusion matched. -/
theorem extractConstraints_color_exclusive (query : String)
    (audience : Option Audience) :
    (extractConstraints query audience).color = none ∨
    (extractConstraints query audience).colorExclude = none := by
  cases hE : extractColorExclude
      (TYPO_CORRECTIONS.foldl (fun q e => replaceWordAll q e.1 e.2)
        (strToLower query)) with
  | none => right; simp [extractConstraints, hE]
  | some v => left; simp [extractConstraints, hE]

/-! ## Claim C10 — blank queries return nothing -/
/-- C10: a query that is empty or all whitespace makes `searchProducts` return
the empty list (the guard fires before constraint extraction, filtering or
scoring). -/
theorem searchProducts_blank_query (products : List Product) (query : String)
    (limit : ℕ) (audience : Option Audience) (sortBy : SortBy)
    (h : jsTrim query = "") :
    searchProducts products query limit audience sortBy = [] := by
  have hs : searchScored products query audience sortBy = [] := by
    simp [searchScored, h]
  cases sortBy <;> simp [searchProducts, hs, sortCmp]

/-- C6 counterexample: for the catalog `[c6A, c6B, c6C]` (scores 0, 4, 7 and
prices 1, 2, 3 under the query "festive"), `price_asc` returns the products in
ascending price order 1, 2, 3, so the pair with score gap 7 > 5 appears in
ascending — not descending — score order: chained near-ties let price
ordering override a clearly more relevant result. -/
theorem priceTieOrderClaim_counterexample :
    ¬ priceTieOrderClaimAsc
      (searchProducts [c6A, c6B, c6C] "festive" 24 none SortBy.price_asc) := by
  intro h
  have h02 := h 0 2 (by decide) (by decide)
  exact absurd (h02.1 (by decide)) (by decide)

/-- Witness for the amended C6 theorem at a concrete two-product catalog. -/
theorem searchProducts_price_sort_near_ties_witness :
    (∀ a ∈ searchScored [c6W1, c6W2] "festive" none SortBy.price_asc,
     ∀ b ∈ searchScored [c6W1, c6W2] "festive" none SortBy.price_asc,
     |a.score - b.score| ≤ 5) ∧
    ((searchProducts [c6W1, c6W2] "festive" 24 none SortBy.price_asc).Pairwise
      (fun a b => a.product.price ≤ b.product.price) ∧
     (searchProducts [c6W1, c6W2] "festive" 24 none SortBy.price_desc).Pairwise
      (fun a b => b.product.price ≤ a.product.price)) :=
  ⟨by decide, searchProducts_price_sort_near_ties [c6W1, c6W2] "festive" 24 none (by decide)⟩

/-- Witness for the amended C2 theorem: the query "navy" against a one-product
catalog returns the navy shirt, and the theorem's guarantees hold of it. -/
theorem searchProducts_preFilter_sound_witness :
    ∃ r ∈ searchProducts [wNavyShirt] "navy" 24 (some Audience.men) SortBy.relevance,
      (∀ b : ℚ, (extractConstraints "navy" (some Audience.men)).budgetMax = some b → 0 < b →
        r.product.price ≤ b) ∧
      (∀ cat : String, (extractConstraints "navy" (some Audience.men)).category = some cat →
        r.product.category = cat) ∧
      (∀ col : String, (extractConstraints "navy" (some Audience.men)).color = some col →
        r.product.color = col) ∧
      (∀ col : String, (extractConstraints "navy" (some Audience.men)).colorExclude = some col →
        r.product.color ≠ col) ∧
      (∀ a : Audience, (some Audience.men : Option Audience) = some a →
        r.product.category ∈ AUDIENCE_CATEGORIES a) := by
  cases hE : searchProducts [wNavyShirt] "navy" 24 (some Audience.men) SortBy.relevance with
  | nil => exact absurd hE (by decide)
  | cons r rest =>
    refine ⟨r, List.mem_cons_self r rest, ?_⟩
    exact searchProducts_preFilter_sound [wNavyShirt] "navy" 24 (some Audience.men)
      SortBy.relevance r (by rw [hE]; exact List.mem_cons_self r rest)

/-- Witness for C10 at a concrete whitespace query and non-empty catalog. -/
theorem searchProducts_blank_query_witness :
    jsTrim "   " = "" ∧
    searchProducts [wNavyShirt] "   " 24 (some Audience.men) SortBy.relevance = [] :=
  ⟨by decide,
   searchProducts_blank_query [wNavyShirt] "   " 24 (some Audience.men)
     SortBy.relevance (by decide)⟩

/-! ## Structural lemmas about the bundle builders -/
theorem jsFindAnchor_eq_some {aid : String} {pool : List Product} {p : Product}
    (h : jsFindAnchor (some aid) pool = some p) : p ∈ pool ∧ p.id = aid := by
  simp only [jsFindAnchor] at h
  split at h
  · simp at h
  · refine ⟨List.mem_of_find?_eq_some h, ?_⟩
    have := List.find?_some h
    simpa using this

theorem roleCandidates_ne_nil (p : Product) :
    (classifyProductRole p).roleCandidates ≠ [] := by
  have hgen : ∀ (l : List String), (if l.length > 0 then l else ["item"]) ≠ [] := by
    intro l
    split
    · rename_i h
      intro he
      subst he
      simp at h
    · simp
  simp only [classifyProductRole]
  exact hgen _

theorem anchorRoleForTemplate_isSome (a : Product) (t : RoleTemplate) :
    (anchorRoleForTemplate a t).isSome = true := by
  simp only [anchorRoleForTemplate]
  split
  · simp
  · split
    · simp
    · have := roleCandidates_ne_nil a
      cases hc : (classifyProductRole a).roleCandidates with
      | nil => exact absurd hc this
      | cons x xs => simp [hc]

/-- `fillRoles` only appends to the bundle. -/
theorem fillRoles_extends {filteredPool pool : List Product} {query : String}
    {tier : Tier} {bounds : PriceTiers} :
    ∀ {roles : List (String × List String)} {bundle : List CartItem}
      {usedIds : List String} {b : List CartItem},
      fillRoles filteredPool pool query tier bounds roles bundle usedIds = some b →
      ∀ it ∈ bundle, it ∈ b := by
  intro roles
  induction roles with
  | nil =>
    intro bundle usedIds b h it hit
    simp only [fillRoles] at h
    cases h
    exact hit
  | cons e rest ih =>
    intro bundle usedIds b h it hit
    obtain ⟨role, allowed⟩ := e
    simp only [fillRoles] at h
    split at h
    · exact ih h it hit
    · split at h
      · exact absurd h (by simp)
      · exact ih h it (by simp [hit])

/-- Every item of a completed `fillRoles` bundle either was already there or
is built from a product of the tier-filtered pool. -/
theorem fillRoles_forall {filteredPool pool : List Product} {query : String}
    {tier : Tier} {bounds : PriceTiers} (Q : CartItem → Prop)
    (hpool : ∀ p ∈ filteredPool, ∀ role : String, Q (mkCartItem p role)) :
    ∀ {roles : List (String × List String)} {bundle : List CartItem}
      {usedIds : List String} {b : List CartItem},
      (∀ it ∈ bundle, Q it) →
      fillRoles filteredPool pool query tier bounds roles bundle usedIds = some b →
      ∀ it ∈ b, Q it := by
  intro roles
  induction roles with
  | nil =>
    intro bundle usedIds b hb h
    simp only [fillRoles] at h
    cases h
    exact hb
  | cons e rest ih =>
    intro bundle usedIds b hb h
    obtain ⟨role, allowed⟩ := e
    simp only [fillRoles] at h
    split at h
    · exact ih hb h
    · split at h
      · exact absurd h (by simp)
      · rename_i sel hsel
        refine ih ?_ h
        intro it hit
        rcases List.mem_append.mp hit with hit | hit
        · exact hb it hit
        · have hmem := head?_mem hsel
          rw [mem_sortCmp] at hmem
          rcases List.mem_map.mp hmem with ⟨pp, hpp, hppe⟩
          have hpf := (List.mem_filter.mp hpp).1
          rcases List.mem_singleton.mp hit with rfl
          have hsel1 : sel.1 = pp := by rw [← hppe]
          rw [hsel1]
          exact hpool pp hpf role

/-- A successful `buildBundleWithTemplate` bundle has exactly one item per
template role. -/
theorem buildBundleWithTemplate_length {pool : List Product} {t : RoleTemplate}
    {tier : Tier} {query : String} {aid : Option String} {bounds : PriceTiers}
    {b : List CartItem}
    (h : buildBundleWithTemplate pool t tier query aid bounds = some b) :
    b.length = t.roles.length := by
  simp only [buildBundleWithTemplate] at h
  split at h
  · split at h
    · rename_i hlen
      cases h
      exact hlen
    · exact absurd h (by simp)
  · exact absurd h (by simp)

/-- Items of a successful `buildBundleWithTemplate` bundle are built from
products of the pool. -/
theorem buildBundleWithTemplate_forall {pool : List Product} {t : RoleTemplate}
    {tier : Tier} {query : String} {aid : Option String} {bounds : PriceTiers}
    {b : List CartItem} (Q : CartItem → Prop)
    (hpool : ∀ p ∈ pool, ∀ role : String, Q (mkCartItem p role))
    (h : buildBundleWithTemplate pool t tier query aid bounds = some b) :
    ∀ it ∈ b, Q it := by
  simp only [buildBundleWithTemplate] at h
  split at h
  · rename_i bundle hfill
    split at h
    · cases h
      refine fillRoles_forall Q ?_ ?_ hfill
      · intro p hp role
        have : p ∈ pool := List.mem_of_mem_filter hp
        exact hpool p this role
      · intro it hit
        rcases hfa : jsFindAnchor aid pool with _ | a
        · simp only [hfa] at hit; simp at hit
        · simp only [hfa] at hit
          rcases hra : anchorRoleForTemplate a t with _ | role
          · simp only [hra] at hit; simp at hit
          · simp only [hra] at hit
            rcases List.mem_singleton.mp hit with rfl
            have hamem : a ∈ pool := by
              rcases aid with _ | aid'
              · simp [jsFindAnchor] at hfa
              · exact (jsFindAnchor_eq_some hfa).1
            exact hpool a hamem role
    · exact absurd h (by simp)
  · exact absurd h (by simp)

/-- When an anchor is found in the pool, every successful template bundle
contains an item with the anchor's id. -/
theorem buildBundleWithTemplate_anchor {pool : List Product} {t : RoleTemplate}
    {tier : Tier} {query : String} {aid : String} {bounds : PriceTiers}
    {a : Product} {b : List CartItem}
    (hfa : jsFindAnchor (some aid) pool = some a)
    (h : buildBundleWithTemplate pool (t : RoleTemplate) tier query (some aid) bounds = some b) :
    ∃ it ∈ b, it.id = a.id := by
  simp only [buildBundleWithTemplate, hfa] at h
  split at h
  · rename_i bundle hfill
    split at h
    · cases h
      rcases hra : anchorRoleForTemplate a t with _ | role
      · have := anchorRoleForTemplate_isSome a t
        rw [hra] at this
        simp at this
      · rw [hra] at hfill
        have hmem : mkCartItem a role ∈ b :=
          fillRoles_extends hfill (mkCartItem a role) (by simp)
        exact ⟨mkCartItem a role, hmem, rfl⟩
    · exact absurd h (by simp)
  · exact absurd h (by simp)

/-- If a list extends `l1 ++ [x]`, it extends `l1`. -/
theorem append_extend {α : Type} {l1 l2 : List α} {x : α}
    (h : ∃ ex, l2 = (l1 ++ [x]) ++ ex) : ∃ ex, l2 = l1 ++ ex := by
  obtain ⟨ex, hex⟩ := h
  exact ⟨[x] ++ ex, by rw [hex, List.append_assoc]⟩

/-- The fallback role loop only appends to the bundle. -/
theorem fallbackRolesLoop_extends {filteredPool pool : List Product}
    {query : String} {tier : Tier} {bounds : PriceTiers} :
    ∀ {roles : List String} {bundle : List CartItem} {usedIds usedRoles : List String},
      ∃ ex, (fallbackRolesLoop filteredPool pool query tier bounds roles bundle
        usedIds usedRoles).1 = bundle ++ ex := by
  intro roles
  induction roles with
  | nil => intro bundle usedIds usedRoles; exact ⟨[], by simp [fallbackRolesLoop]⟩
  | cons role rest ih =>
    intro bundle usedIds usedRoles
    simp only [fallbackRolesLoop]
    split
    · exact ⟨[], by simp⟩
    · split
      · exact ih
      · split
        · exact ih
        · exact append_extend ih

/-- The padding loop only appends to the bundle. -/
theorem padLoop_extends :
    ∀ {ps : List Product} {bundle : List CartItem} {usedIds : List String},
      ∃ ex, padLoop ps bundle usedIds = bundle ++ ex := by
  intro ps
  induction ps with
  | nil => intro bundle usedIds; exact ⟨[], by simp [padLoop]⟩
  | cons p rest ih =>
    intro bundle usedIds
    simp only [padLoop]
    split
    · exact ⟨[], by simp⟩
    · split
      · exact ih
      · exact append_extend ih

/-- Items appended by the fallback role loop come from the filtered pool. -/
theorem fallbackRolesLoop_forall {filteredPool pool : List Product}
    {query : String} {tier : Tier} {bounds : PriceTiers} (Q : CartItem → Prop)
    (hpool : ∀ p ∈ filteredPool, ∀ role : String, Q (mkCartItem p role)) :
    ∀ {roles : List String} {bundle : List CartItem} {usedIds usedRoles : List String},
      (∀ it ∈ bundle, Q it) →
      ∀ it ∈ (fallbackRolesLoop filteredPool pool query tier bounds roles bundle
        usedIds usedRoles).1, Q it := by
  intro roles
  induction roles with
  | nil =>
    intro bundle usedIds usedRoles hb it hit
    simp only [fallbackRolesLoop] at hit
    exact hb it hit
  | cons role rest ih =>
    intro bundle usedIds usedRoles hb it hit
    simp only [fallbackRolesLoop] at hit
    split at hit
    · exact hb it hit
    · split at hit
      · exact ih hb it hit
      · split at hit
        · exact ih hb it hit
        · rename_i sel hsel
          refine ih ?_ it hit
          intro it' hit'
          rcases List.mem_append.mp hit' with hit' | hit'
          · exact hb it' hit'
          · have hmem := head?_mem hsel
            rw [mem_sortCmp] at hmem
            rcases List.mem_map.mp hmem with ⟨pp, hpp, hppe⟩
            have hpf := (List.mem_filter.mp hpp).1
            rcases List.mem_singleton.mp hit' with rfl
            have hsel1 : sel.1 = pp := by rw [← hppe]
            rw [hsel1]
            exact hpool pp hpf _

/-- Items appended by the padding loop come from the iterated pool. -/
theorem padLoop_forall (Q : CartItem → Prop) :
    ∀ {ps : List Product}, (∀ p ∈ ps, ∀ role : String, Q (mkCartItem p role)) →
    ∀ {bundle : List CartItem} {usedIds : List String},
      (∀ it ∈ bundle, Q it) →
      ∀ it ∈ padLoop ps bundle usedIds, Q it := by
  intro ps
  induction ps with
  | nil =>
    intro _ bundle usedIds hb it hit
    simp only [padLoop] at hit
    exact hb it hit
  | cons p rest ih =>
    intro hps bundle usedIds hb it hit
    have hps' : ∀ p' ∈ rest, ∀ role : String, Q (mkCartItem p' role) :=
      fun p' hp' => hps p' (by simp [hp'])
    simp only [padLoop] at hit
    split at hit
    · exact hb it hit
    · split at hit
      · exact ih hps' hb it hit
      · refine ih hps' ?_ it hit
        intro it' hit'
        rcases List.mem_append.mp hit' with hit' | hit'
        · exact hb it' hit'
        · rcases List.mem_singleton.mp hit' with rfl
          exact hps p (by simp) _

/-- The fallback bundle never exceeds 3 items. -/
theorem buildFallbackBundle_length_le {pool : List Product} {tier : Tier}
    {query : String} {aid : Option String} {bounds : PriceTiers} :
    (buildFallbackBundle pool tier query aid bounds).length ≤ 3 := by
  simp only [buildFallbackBundle]
  exact le_trans (List.length_take_le 3 _) (le_refl 3)

/-- Items of the fallback bundle are built from products of the pool. -/
theorem buildFallbackBundle_forall {pool : List Product} {tier : Tier}
    {query : String} {aid : Option String} {bounds : PriceTiers}
    (Q : CartItem → Prop)
    (hpool : ∀ p ∈ pool, ∀ role : String, Q (mkCartItem p role)) :
    ∀ it ∈ buildFallbackBundle pool tier query aid bounds, Q it := by
  intro it hit
  simp only [buildFallbackBundle] at hit
  have hit' := List.mem_of_mem_take hit
  have hfp : ∀ p ∈ tierFilterPool (jsFindAnchor aid pool) bounds tier pool,
      ∀ role : String, Q (mkCartItem p role) := by
    intro p hp role
    exact hpool p (List.mem_of_mem_filter hp) role
  refine padLoop_forall Q hfp ?_ it hit'
  refine fallbackRolesLoop_forall Q hfp ?_
  intro it' hit''
  rcases hfa : jsFindAnchor aid pool with _ | a
  · simp only [hfa] at hit''; simp at hit''
  · simp only [hfa] at hit''
    rcases List.mem_singleton.mp hit'' with rfl
    have hamem : a ∈ pool := by
      rcases aid with _ | aid'
      · simp [jsFindAnchor] at hfa
      · exact (jsFindAnchor_eq_some hfa).1
    exact hpool a hamem _

/-- When an anchor is found in the pool, the fallback bundle contains an item
with the anchor's id (the anchor is inserted first and survives the
three-item cut). -/
theorem buildFallbackBundle_anchor {pool : List Product} {tier : Tier}
    {query : String} {aid : String} {bounds : PriceTiers} {a : Product}
    (hfa : jsFindAnchor (some aid) pool = some a) :
    ∃ it ∈ buildFallbackBundle pool tier query (some aid) bounds, it.id = a.id := by
  simp only [buildFallbackBundle, hfa]
  set role := (classifyProductRole a).roleCandidates.headD "item" with hrole
  obtain ⟨ex1, hex1⟩ := @fallbackRolesLoop_extends
    (tierFilterPool (some a) bounds tier pool) pool query tier bounds
    rolePriority [mkCartItem a role] [a.id] [role]
  obtain ⟨ex2, hex2⟩ := @padLoop_extends
    (tierFilterPool (some a) bounds tier pool)
    ((fallbackRolesLoop (tierFilterPool (some a) bounds tier pool) pool
      query tier bounds rolePriority [mkCartItem a role] [a.id] [role]).1)
    ((fallbackRolesLoop (tierFilterPool (some a) bounds tier pool) pool
      query tier bounds rolePriority [mkCartItem a role] [a.id] [role]).2)
  refine ⟨mkCartItem a role, ?_, rfl⟩
  rw [hex2, hex1]
  simp

/-- Every template in the `ROLE_TEMPLATES` table has distinct role keys (JS
object keys are unique). -/
theorem roleTemplates_keys_nodup (sc : String) (aud : Audience) :
    ∀ t ∈ roleTemplates sc aud, (t.roles.map Prod.fst).Nodup := by
  cases aud <;> (simp only [roleTemplates]; split_ifs <;> decide)

theorem templatesForOpt_keys_nodup (sc : Option String) (aud : Option Audience) :
    ∀ t ∈ templatesForOpt sc aud, (t.roles.map Prod.fst).Nodup := by
  match sc, aud with
  | some s, some a =>
    simp only [templatesForOpt]
    split
    · exact roleTemplates_keys_nodup s a
    · simp
  | some s, none => simp [templatesForOpt]
  | none, _ => simp [templatesForOpt]

/-- A validated template bundle of the right length has pairwise distinct
roles, all of them template roles. -/
theorem validateBundle_spec {b : List CartItem} {t : RoleTemplate}
    (hv : validateBundle b t = true)
    (hlen : b.length = t.roles.length)
    (hkeys : (t.roles.map Prod.fst).Nodup) :
    (b.map CartItem.role).Nodup ∧ ∀ it ∈ b, it.role ∈ t.roles.map Prod.fst := by
  simp only [validateBundle, Bool.and_eq_true, beq_iff_eq, List.all_eq_true] at hv
  obtain ⟨hlen2, hsub⟩ := hv
  have hkd : (t.roles.map Prod.fst).dedup = t.roles.map Prod.fst :=
    List.dedup_eq_self.mpr hkeys
  rw [hkd] at hlen2 hsub
  have hbl_len : (b.map CartItem.role).length = (t.roles.map Prod.fst).length := by
    simp [hlen]
  have hdedup_len : (b.map CartItem.role).dedup.length = (b.map CartItem.role).length := by
    rw [← hlen2, hbl_len]
  have hdedup_eq : (b.map CartItem.role).dedup = b.map CartItem.role :=
    (List.dedup_sublist _).eq_of_length hdedup_len
  have hnodup : (b.map CartItem.role).Nodup := by
    rw [← hdedup_eq]; exact List.nodup_dedup _
  refine ⟨hnodup, ?_⟩
  have hsub' : (t.roles.map Prod.fst) ⊆ (b.map CartItem.role) := by
    intro x hx
    have hc := hsub x hx
    have hmem : x ∈ (b.map CartItem.role).dedup := by simpa using hc
    rw [hdedup_eq] at hmem
    exact hmem
  have hfin : (t.roles.map Prod.fst).toFinset = (b.map CartItem.role).toFinset := by
    apply Finset.eq_of_subset_of_card_le
    · intro x hx
      rw [List.mem_toFinset] at hx ⊢
      exact hsub' hx
    · rw [List.toFinset_card_of_nodup hnodup, List.toFinset_card_of_nodup hkeys, hbl_len]
  intro it hit
  have hmem : it.role ∈ (b.map CartItem.role).toFinset := by
    rw [List.mem_toFinset]
    exact List.mem_map_of_mem CartItem.role hit
  rw [← hfin, List.mem_toFinset] at hmem
  exact hmem

/-- Case analysis for the template loop: a successful result comes from some
template that built and validated. -/
theorem tryTemplates_cases {pool : List Product} {query : String} {tier : Tier}
    {bounds : PriceTiers} {aid : Option String} :
    ∀ {ts : List RoleTemplate} {b : List CartItem},
      tryTemplates pool query tier bounds aid ts = some b →
      ∃ t ∈ ts, buildBundleWithTemplate pool t tier query aid bounds = some b ∧
        validateBundle b t = true := by
  intro ts
  induction ts with
  | nil => intro b h; simp [tryTemplates] at h
  | cons t ts ih =>
    intro b h
    simp only [tryTemplates] at h
    split at h
    · rename_i b' hb'
      split at h
      · rename_i hval
        cases h
        exact ⟨t, by simp, hb', hval⟩
      · obtain ⟨t', ht', h1, h2⟩ := ih h
        exact ⟨t', by simp [ht'], h1, h2⟩
    · obtain ⟨t', ht', h1, h2⟩ := ih h
      exact ⟨t', by simp [ht'], h1, h2⟩

/-- A tier bundle is either a validated template bundle or the fallback
bundle. -/
theorem buildTierBundle_cases (templates : List RoleTemplate)
    (pool : List Product) (query : String) (tier : Tier) (bounds : PriceTiers)
    (aid : Option String) :
    (∃ t ∈ templates,
      buildBundleWithTemplate pool t tier query aid bounds =
        some (buildTierBundle templates pool query tier bounds aid) ∧
      validateBundle (buildTierBundle templates pool query tier bounds aid) t = true) ∨
    buildTierBundle templates pool query tier bounds aid =
      buildFallbackBundle pool tier query aid bounds := by
  rcases h : tryTemplates pool query tier bounds aid templates with _ | b
  · right; simp [buildTierBundle, h]
  · left
    have hbt : buildTierBundle templates pool query tier bounds aid = b := by
      simp [buildTierBundle, h]
    rw [hbt]
    exact tryTemplates_cases h

/-- Elimination for a successful `buildCarts`. -/
theorem buildCarts_ok_elim {cand : List SearchResult} {prov query : String}
    {pref : Option String} {aud : Option Audience} {sc : Option String}
    {mix : Bool} {aid : Option String} {r : BuildResult}
    (h : buildCarts cand prov query pref aud sc mix aid = Except.ok r) :
    ¬ (bundlePool cand query aud sc mix).length < 3 ∧
    r.budget = buildTierBundle (templatesForOpt sc aud)
      (bundlePool cand query aud sc mix) query .budget
      (tierBounds (bundlePool cand query aud sc mix)) aid ∧
    r.balanced = buildTierBundle (templatesForOpt sc aud)
      (bundlePool cand query aud sc mix) query .balanced
      (tierBounds (bundlePool cand query aud sc mix)) aid ∧
    r.premium = buildTierBundle (templatesForOpt sc aud)
      (bundlePool cand query aud sc mix) query .premium
      (tierBounds (bundlePool cand query aud sc mix)) aid ∧
    r.budget.length ≠ 0 ∧ r.balanced.length ≠ 0 ∧ r.premium.length ≠ 0 := by
  simp only [buildCarts] at h
  split at h
  · exact absurd h (by simp)
  · rename_i hlen
    split at h
    · exact absurd h (by simp)
    · rename_i hne
      cases h
      have h1 := fun he => hne (Or.inl he)
      have h2 := fun he => hne (Or.inr (Or.inl he))
      have h3 := fun he => hne (Or.inr (Or.inr he))
      exact ⟨hlen, rfl, rfl, rfl, h1, h2, h3⟩

/-- C1 (amended): a successful `buildCarts` returns exactly the three bundles
budget/balanced/premium; each is non-empty and is either a complete validated
template bundle (one item per template role, so 3 **or 4** items with
pairwise-distinct template-valid roles) or a fallback bundle of at most 3
items; a tier that would be empty makes the whole build fail instead. -/
theorem buildCarts_bundle_shape (cand : List SearchResult) (prov query : String)
    (pref : Option String) (aud : Option Audience) (sc : Option String)
    (mix : Bool) (aid : Option String) (r : BuildResult)
    (h : buildCarts cand prov query pref aud sc mix aid = Except.ok r) :
    bundleWellFormed (templatesForOpt sc aud) r.budget ∧
    bundleWellFormed (templatesForOpt sc aud) r.balanced ∧
    bundleWellFormed (templatesForOpt sc aud) r.premium := by
  obtain ⟨-, hb, hba, hp, hn1, hn2, hn3⟩ := buildCarts_ok_elim h
  have shape : ∀ (tier : Tier) (bundle : List CartItem),
      bundle = buildTierBundle (templatesForOpt sc aud)
        (bundlePool cand query aud sc mix) query tier
        (tierBounds (bundlePool cand query aud sc mix)) aid →
      bundle.length ≠ 0 → bundleWellFormed (templatesForOpt sc aud) bundle := by
    intro tier bundle hbt hne
    subst hbt
    refine ⟨Nat.one_le_iff_ne_zero.mpr hne, ?_⟩
    rcases buildTierBundle_cases (templatesForOpt sc aud)
        (bundlePool cand query aud sc mix) query tier
        (tierBounds (bundlePool cand query aud sc mix)) aid with
      ⟨t, ht, hbb, hv⟩ | hfb
    · left
      have hlen := buildBundleWithTemplate_length hbb
      obtain ⟨hnd, hroles⟩ :=
        validateBundle_spec hv hlen (templatesForOpt_keys_nodup sc aud t ht)
      exact ⟨t, ht, hlen, hnd, hroles⟩
    · right
      rw [hfb]
      exact buildFallbackBundle_length_le
  exact ⟨shape .budget r.budget hb hn1, shape .balanced r.balanced hba hn2,
    shape .premium r.premium hp hn3⟩

/-! ## Claim C3 — men/pink guardrail (bundle side) -/
/-- Products surviving `bundlePool` for audience `men` with no pink-adjacent
keyword in the query are never pink. -/
theorem bundlePool_no_pink {cand : List SearchResult} {query : String}
    {sc : Option String} {mix : Bool}
    (hq : PINK_KEYWORDS.all (fun k => !(jsIncludes (strToLower query) k)) = true) :
    ∀ p ∈ bundlePool cand query (some Audience.men) sc mix,
      strToLower p.color ≠ "pink" := by
  have hpink : (PINK_KEYWORDS.any (fun k => jsIncludes (strToLower query) k)) = false := by
    rw [List.any_eq_false]
    intro k hk
    have := (List.all_eq_true.mp hq) k hk
    simpa using this
  intro p hp
  simp only [bundlePool, hpink] at hp
  simp only [reduceIte, Bool.not_false, if_true] at hp
  have := (List.mem_filter.mp hp).2
  simpa using this

/-- C3 (amended): for audience `men` and a query containing no pink-adjacent
keyword, no item of any bundle returned by `buildCarts` has color `"Pink"`
(the search pipeline itself performs no such filtering; see the
counterexample). -/
theorem buildCarts_men_no_pink (cand : List SearchResult) (prov query : String)
    (pref : Option String) (sc : Option String) (mix : Bool)
    (aid : Option String) (r : BuildResult)
    (hq : PINK_KEYWORDS.all (fun k => !(jsIncludes (strToLower query) k)) = true)
    (h : buildCarts cand prov query pref (some Audience.men) sc mix aid = Except.ok r) :
    ∀ it ∈ r.budget ++ r.balanced ++ r.premium, it.color ≠ "Pink" := by
  obtain ⟨-, hb, hba, hp, -, -, -⟩ := buildCarts_ok_elim h
  have hQ : ∀ p ∈ bundlePool cand query (some Audience.men) sc mix,
      ∀ role : String, (mkCartItem p role).color ≠ "Pink" := by
    intro p hpm role hcol
    have hlow := bundlePool_no_pink hq p hpm
    apply hlow
    have : p.color = "Pink" := hcol
    rw [this]
    decide
  have tierAll : ∀ (tier : Tier), ∀ it ∈ buildTierBundle (templatesForOpt sc (some Audience.men))
      (bundlePool cand query (some Audience.men) sc mix) query tier
      (tierBounds (bundlePool cand query (some Audience.men) sc mix)) aid,
      it.color ≠ "Pink" := by
    intro tier it hit
    rcases buildTierBundle_cases (templatesForOpt sc (some Audience.men))
        (bundlePool cand query (some Audience.men) sc mix) query tier
        (tierBounds (bundlePool cand query (some Audience.men) sc mix)) aid with
      ⟨t, ht, hbb, -⟩ | hfb
    · exact buildBundleWithTemplate_forall (fun it => it.color ≠ "Pink") hQ hbb it hit
    · rw [hfb] at hit
      exact buildFallbackBundle_forall (fun it => it.color ≠ "Pink") hQ it hit
  intro it hit
  rcases List.mem_append.mp hit with hit' | hit'
  · rcases List.mem_append.mp hit' with hit'' | hit''
    · exact tierAll .budget it (hb ▸ hit'')
    · exact tierAll .balanced it (hba ▸ hit'')
  · exact tierAll .premium it (hp ▸ hit')

/-! ## Claim C4 — the anchor appears in all three bundles -/
/-- C4: if the anchor product id resolves to a product of the filtered bundle
pool, every one of the three returned bundles contains an item with that id,
whatever the anchor's price. -/
theorem buildCarts_anchor_in_all_bundles (cand : List SearchResult)
    (prov query : String) (pref : Option String) (aud : Option Audience)
    (sc : Option String) (mix : Bool) (aid : String) (a : Product)
    (r : BuildResult)
    (hfa : jsFindAnchor (some aid) (bundlePool cand query aud sc mix) = some a)
    (h : buildCarts cand prov query pref aud sc mix (some aid) = Except.ok r) :
    (∃ it ∈ r.budget, it.id = aid) ∧ (∃ it ∈ r.balanced, it.id = aid) ∧
    (∃ it ∈ r.premium, it.id = aid) := by
  have haid : a.id = aid := (jsFindAnchor_eq_some hfa).2
  obtain ⟨-, hb, hba, hp, -, -, -⟩ := buildCarts_ok_elim h
  have tierHas : ∀ (tier : Tier),
      ∃ it ∈ buildTierBundle (templatesForOpt sc aud)
        (bundlePool cand query aud sc mix) query tier
        (tierBounds (bundlePool cand query aud sc mix)) (some aid), it.id = aid := by
    intro tier
    rcases buildTierBundle_cases (templatesForOpt sc aud)
        (bundlePool cand query aud sc mix) query tier
        (tierBounds (bundlePool cand query aud sc mix)) (some aid) with
      ⟨t, ht, hbb, -⟩ | hfb
    · obtain ⟨it, hit, hid⟩ := buildBundleWithTemplate_anchor hfa hbb
      exact ⟨it, hit, by rw [hid, haid]⟩
    · rw [hfb]
      obtain ⟨it, hit, hid⟩ := buildFallbackBundle_anchor hfa
      exact ⟨it, hit, by rw [hid, haid]⟩
  exact ⟨hb ▸ tierHas .budget, hba ▸ tierHas .balanced, hp ▸ tierHas .premium⟩

/-! ## Claim C5 — the anchor and price tiers -/
/-- C5 (amended): the anchor is excluded from the price-tier membership
filter, and — whatever its price — it still reaches the bundle: every
successful template bundle and every fallback bundle contains it.  (Its price
does, however, enter the tier-boundary computation, which runs over the full
filtered pool including the anchor; see the counterexample.) -/
theorem anchor_excluded_from_tier_filter (pool : List Product) (aid : String)
    (a : Product) (bounds : PriceTiers) (tier : Tier) (t : RoleTemplate)
    (query : String)
    (hfa : jsFindAnchor (some aid) pool = some a) :
    (∀ x ∈ tierFilterPool (some a) bounds tier pool, x.id ≠ a.id) ∧
    (∀ b, buildBundleWithTemplate pool t tier query (some aid) bounds = some b →
      ∃ it ∈ b, it.id = a.id) ∧
    (∃ it ∈ buildFallbackBundle pool tier query (some aid) bounds, it.id = a.id) := by
  refine ⟨?_, ?_, buildFallbackBundle_anchor hfa⟩
  · intro x hx
    have hpred := (List.mem_filter.mp hx).2
    by_cases hid : x.id == a.id
    · rw [if_pos hid] at hpred
      cases hpred
    · intro he
      exact absurd (by simp [he] : (x.id == a.id) = true) hid
  · intro b hbb
    exact buildBundleWithTemplate_anchor hfa hbb

/-! ## Claim C8 — the insufficient-candidates failure -/
/-- C8 (amended): when fewer than 3 products survive the hard filtering,
`buildCarts` throws the fixed generic message
`"Not enough products after filtering"`; the diagnostic payload (missing
tiers, counts, categories) is attached only to the later empty-tier failure. -/
theorem buildCarts_insufficient (cand : List SearchResult) (prov query : String)
    (pref : Option String) (aud : Option Audience) (sc : Option String)
    (mix : Bool) (aid : Option String)
    (h : (bundlePool cand query aud sc mix).length < 3) :
    buildCarts cand prov query pref aud sc mix aid =
      Except.error "Not enough products after filtering" := by
  simp only [buildCarts]
  rw [if_pos h]

/-- C1 counterexample: on `c1cand` the build succeeds and every bundle is
built from the four-role template, so the budget bundle has 4 items — not
exactly 3 as claimed (and likewise for the other tiers). -/
theorem bundle_not_exactly_three_items :
    ¬ (∀ r : BuildResult,
      buildCarts c1cand "openai" "dinner" none (some Audience.men)
        (some "nyc_dinner") false none = Except.ok r →
      r.budget.length = 3 ∧ r.balanced.length = 3 ∧ r.premium.length = 3) := by
  intro hclaim
  have hfact : (buildCarts c1cand "openai" "dinner" none (some Audience.men)
      (some "nyc_dinner") false none).toOption.map (fun r => r.budget.length) =
      some 4 := by decide
  revert hfact
  cases hE : buildCarts c1cand "openai" "dinner" none (some Audience.men)
      (some "nyc_dinner") false none with
  | error e => intro hfact; simp [Except.toOption] at hfact
  | ok r =>
    intro hfact
    have h3 := (hclaim r hE).1
    simp [Except.toOption] at hfact
    omega

/-- Witness for the amended C1 theorem at the concrete pool. -/
theorem buildCarts_bundle_shape_witness :
    ∃ r, buildCarts c1cand "openai" "dinner" none (some Audience.men)
        (some "nyc_dinner") false none = Except.ok r ∧
      (bundleWellFormed (templatesForOpt (some "nyc_dinner") (some Audience.men)) r.budget ∧
       bundleWellFormed (templatesForOpt (some "nyc_dinner") (some Audience.men)) r.balanced ∧
       bundleWellFormed (templatesForOpt (some "nyc_dinner") (some Audience.men)) r.premium) := by
  have hOk : (buildCarts c1cand "openai" "dinner" none (some Audience.men)
      (some "nyc_dinner") false none).isOk = true := by decide
  cases hE : buildCarts c1cand "openai" "dinner" none (some Audience.men)
      (some "nyc_dinner") false none with
  | error e => rw [hE] at hOk; simp [Except.isOk, Except.toBool] at hOk
  | ok r =>
    exact ⟨r, rfl, buildCarts_bundle_shape c1cand "openai" "dinner" none
      (some Audience.men) (some "nyc_dinner") false none r hE⟩

/-- C3 counterexample: the search pipeline applies no pink guardrail — for
audience `men` and the pink-free query "shirts" it happily returns a pink
shirt. -/
theorem search_returns_pink_for_men :
    PINK_KEYWORDS.all (fun k => !(jsIncludes (strToLower "shirts") k)) = true ∧
    ∃ r ∈ searchProducts [c3Pink] "shirts" 24 (some Audience.men) SortBy.relevance,
      r.product.color = "Pink" :=
  ⟨by decide, by decide⟩

/-- Witness for the amended C3 theorem at the concrete pool. -/
theorem buildCarts_men_no_pink_witness :
    ∃ r, buildCarts c1cand "openai" "dinner" none (some Audience.men)
        (some "nyc_dinner") false none = Except.ok r ∧
      ∀ it ∈ r.budget ++ r.balanced ++ r.premium, it.color ≠ "Pink" := by
  have hOk : (buildCarts c1cand "openai" "dinner" none (some Audience.men)
      (some "nyc_dinner") false none).isOk = true := by decide
  cases hE : buildCarts c1cand "openai" "dinner" none (some Audience.men)
      (some "nyc_dinner") false none with
  | error e => rw [hE] at hOk; simp [Except.isOk, Except.toBool] at hOk
  | ok r =>
    exact ⟨r, rfl, buildCarts_men_no_pink c1cand "openai" "dinner" none
      (some "nyc_dinner") false none r (by decide) hE⟩

/-- Witness for C4 at the concrete pool with the loafer as anchor. -/
theorem buildCarts_anchor_witness :
    ∃ r, buildCarts c1cand "openai" "dinner" none (some Audience.men)
        (some "nyc_dinner") false (some "lf1") = Except.ok r ∧
      ((∃ it ∈ r.budget, it.id = "lf1") ∧ (∃ it ∈ r.balanced, it.id = "lf1") ∧
       (∃ it ∈ r.premium, it.id = "lf1")) := by
  have hOk : (buildCarts c1cand "openai" "dinner" none (some Audience.men)
      (some "nyc_dinner") false (some "lf1")).isOk = true := by decide
  cases hE : buildCarts c1cand "openai" "dinner" none (some Audience.men)
      (some "nyc_dinner") false (some "lf1") with
  | error e => rw [hE] at hOk; simp [Except.isOk, Except.toBool] at hOk
  | ok r =>
    exact ⟨r, rfl, buildCarts_anchor_in_all_bundles c1cand "openai" "dinner" none
      (some Audience.men) (some "nyc_dinner") false "lf1" wLoafer r (by decide) hE⟩

/-- C5 counterexample: the tier boundaries `buildCarts` uses are computed
over the filtered pool **including** the anchor, so they differ from the
boundaries of the pool without the anchor (anchor price 1000 against
100/200/300: budgetMax 397 versus 166). -/
theorem tier_bounds_depend_on_anchor :
    tierBounds (bundlePool c5cand "dinner" none none false) ≠
      tierBounds ((bundlePool c5cand "dinner" none none false).filter
        (fun p => p.id != "anch")) := by
  decide

/-- Witness for the amended C5 theorem at the concrete pool and first
template. -/
theorem anchor_excluded_from_tier_filter_witness :
    jsFindAnchor (some "lf1") (bundlePool c1cand "dinner" (some Audience.men)
      (some "nyc_dinner") false) = some wLoafer ∧
    ((∀ x ∈ tierFilterPool (some wLoafer)
        (tierBounds (bundlePool c1cand "dinner" (some Audience.men) (some "nyc_dinner") false))
        Tier.budget
        (bundlePool c1cand "dinner" (some Audience.men) (some "nyc_dinner") false),
        x.id ≠ wLoafer.id) ∧
     (∀ b, buildBundleWithTemplate
        (bundlePool c1cand "dinner" (some Audience.men) (some "nyc_dinner") false)
        ⟨[("top", ["Shirts", "Polos"]),
          ("bottom", ["Chinos", "Jeans", "Trousers", "Pants"]),
          ("footwear", ["Loafers", "Derbies", "Sneakers"]),
          ("addOn", ["Blazers"])]⟩
        Tier.budget "dinner" (some "lf1")
        (tierBounds (bundlePool c1cand "dinner" (some Audience.men) (some "nyc_dinner") false)) =
          some b →
        ∃ it ∈ b, it.id = wLoafer.id) ∧
     (∃ it ∈ buildFallbackBundle
        (bundlePool c1cand "dinner" (some Audience.men) (some "nyc_dinner") false)
        Tier.budget "dinner" (some "lf1")
        (tierBounds (bundlePool c1cand "dinner" (some Audience.men) (some "nyc_dinner") false)),
        it.id = wLoafer.id)) :=
  ⟨by decide,
   anchor_excluded_from_tier_filter
     (bundlePool c1cand "dinner" (some Audience.men) (some "nyc_dinner") false)
     "lf1" wLoafer
     (tierBounds (bundlePool c1cand "dinner" (some Audience.men) (some "nyc_dinner") false))
     Tier.budget
     ⟨[("top", ["Shirts", "Polos"]),
       ("bottom", ["Chinos", "Jeans", "Trousers", "Pants"]),
       ("footwear", ["Loafers", "Derbies", "Sneakers"]),
       ("addOn", ["Blazers"])]⟩
     "dinner" (by decide)⟩

/-- C8 counterexample: with only two surviving products the failure is the
fixed generic message, which names neither the count (2) nor the observed
category (Shirts). -/
theorem insufficient_error_is_generic :
    buildCarts c8cand "openai" "casual" none (some Audience.men)
      (some "nyc_dinner") false none =
      Except.error "Not enough products after filtering" ∧
    jsIncludes "Not enough products after filtering" "2" = false ∧
    jsIncludes "Not enough products after filtering" "Shirts" = false := by
  refine ⟨?_, by decide, by decide⟩
  simp only [buildCarts]
  rw [if_pos (by decide)]

/-- Witness for the amended C8 theorem at the concrete two-product pool. -/
theorem buildCarts_insufficient_witness :
    (bundlePool c8cand "casual" (some Audience.men) (some "nyc_dinner") false).length < 3 ∧
    buildCarts c8cand "openai" "casual" none (some Audience.men)
      (some "nyc_dinner") false none =
      Except.error "Not enough products after filtering" :=
  ⟨by decide,
   buildCarts_insufficient c8cand "openai" "casual" none (some Audience.men)
     (some "nyc_dinner") false none (by decide)⟩

theorem generateProductForScenario_erase (r1 r2 : ℕ → ℚ) (p1 p2 : ℕ) (s : Scenario)
    (a : Audience) (i : ℕ) (ih : Bool) :
    eraseStock (generateProductForScenario r1 p1 s a i ih).1 =
      eraseStock (generateProductForScenario r2 p2 s a i ih).1 := rfl

theorem genFrom_erase (r1 r2 : ℕ → ℚ) :
    ∀ (tasks : List (Scenario × Audience × ℕ × Bool)) (p1 p2 : ℕ),
      (genFrom r1 p1 tasks).map eraseStock = (genFrom r2 p2 tasks).map eraseStock
  | [], _, _ => rfl
  | t :: rest, p1, p2 => by
    simp only [genFrom, List.map_cons]
    exact congr
      (congrArg List.cons
        (generateProductForScenario_erase r1 r2 p1 p2 t.1 t.2.1 t.2.2.1 t.2.2.2))
      (genFrom_erase r1 r2 rest _ _)

/-- C9 (amended): catalog generation is deterministic only up to the stock
fields.  Every field of each generated product other than `inStock`,
`stockCount` and `deliveryDays` is a function of the product's scenario,
audience and index alone: catalogs generated from any two `Math.random()`
streams agree after those three fields are overwritten with constants.
The three fields themselves are drawn from `Math.random()` on every
invocation (lines 405–414 of src/lib/catalog.ts), so two invocations need
not produce equal product lists. -/
theorem generateCatalog_erase (r1 r2 : ℕ → ℚ) :
    (generateCatalog r1).map eraseStock = (generateCatalog r2).map eraseStock :=
  genFrom_erase r1 r2 catalogTasks 0 0

/-- C9 counterexample: two invocations of `generateCatalog` with different
`Math.random()` streams (one always returning 1/2, one always returning 0)
produce different product lists — already the first product's `inStock`
differs — so catalog generation is not deterministic. -/
theorem generateCatalog_not_deterministic :
    generateCatalog (fun _ => (1 : ℚ) / 2) ≠ generateCatalog (fun _ => 0) := by
  intro h
  have h1 : (generateCatalog (fun _ => (1 : ℚ) / 2)).head?.map Product.inStock = some true := by
    decide
  have h2 : (generateCatalog (fun _ => (0 : ℚ))).head?.map Product.inStock = some false := by
    decide
  rw [h] at h1
  exact absurd (h1.symm.trans h2) (by decide)

/-- C2 counterexample: the query "navy shirts under 0" extracts
`budgetMax = 0` (set), yet `searchProducts` returns a product priced 100 —
the budget filter is skipped for a zero budget because `0` is falsy in the
JS guard `constraints.budgetMax && price > constraints.budgetMax`, so the
original claim (price at most `budgetMax` whenever it is set) fails. -/
theorem budget_zero_not_enforced :
    (extractConstraints "navy shirts under 0" (some Audience.men)).budgetMax = some 0 ∧
    (searchProducts [wNavyShirt] "navy shirts under 0" 24 (some Audience.men)
        SortBy.relevance).map (fun r => r.product.price) = [100] := by
  constructor <;> decide
